import Mathlib

/-!
# VncFlinger: the `AndroidDesktop` controller

A shallow embedding of `src/vncflinger/AndroidDesktop.cpp` and the properties of the
controller that are stated in the specification.

Conventions of the embedding.

* The controller object is the record `AndroidDesktop`; every method becomes a function
  from the state before the call (and the answers of the external collaborators during
  the call) to the list of calls made to the collaborators, in order, and the state after.
* A method returns `none` when the C++ execution has no defined behaviour: a null
  `mServer`, `mPixels`, `mVirtualDisplay` or `mInputDevice` is dereferenced, or a float
  that is not a finite value in range is converted to `uint32_t`.
* `int` and `int32_t` values are integers (`Int`); signed arithmetic is the mathematical
  one, which is what C++ computes whenever it does not overflow.  `uint32_t` values are
  natural numbers reduced modulo `2 ^ 32` at every operation.
* `float` is IEEE-754 binary32 with round-to-nearest-even; the conversions and the one
  division the controller performs are computed exactly, in natural-number arithmetic.
* The mutexes and the event file descriptor order concurrent callers; the embedding is
  the sequential behaviour of one call at a time.
-/

namespace VncFlinger

set_option linter.unusedVariables false

/-! ## Data model -/

/-- The type `android::Rect`: four `int32_t` edges. -/
structure Rect where
  left : Int
  top : Int
  right : Int
  bottom : Int
deriving DecidableEq, Repr

/-- The method `Rect::getWidth`: `right - left`. -/
def Rect.getWidth (r : Rect) : Int := r.right - r.left

/-- The method `Rect::getHeight`: `bottom - top`. -/
def Rect.getHeight (r : Rect) : Int := r.bottom - r.top

/-- The type `ui::Size`: `int32_t` width and height. -/
structure Size where
  width : Int
  height : Int
deriving DecidableEq, Repr

/-- The type `ui::Rotation`. -/
inductive Rotation where
  | ROTATION_0
  | ROTATION_90
  | ROTATION_180
  | ROTATION_270
deriving DecidableEq, Repr

/-- The type `rfb::Point`: `int` coordinates. -/
structure Point where
  x : Int
  y : Int
deriving DecidableEq, Repr

/-- The type `rfb::Screen` as built by `rfb::Screen(id, x, y, w, h, flags)`. -/
structure Screen where
  id : Int
  x : Int
  y : Int
  w : Int
  h : Int
  flags : Int
deriving DecidableEq, Repr

/-- The type `rfb::ScreenSet`: the screens in the order they were added. -/
abbrev ScreenSet := List Screen

/-- What the controller reads from its `AndroidPixelBuffer`: `width()` and `height()`. -/
structure PixelBuffer where
  width : Int
  height : Int
deriving DecidableEq, Repr

/-- What the controller reads from its `VirtualDisplay`: `getDisplayRect()`. -/
structure VirtualDisplay where
  displayRect : Rect
deriving DecidableEq, Repr

/-- The buffer handed out by `CpuConsumer::lockNextBuffer`. -/
structure LockedBuffer where
  frameNumber : Nat
  width : Int
  height : Int
  stride : Int
deriving DecidableEq, Repr

/-- The results `rfb::resultSuccess` and `rfb::resultInvalid` of `setScreenLayout`. -/
inductive ScreenResult where
  | resultSuccess
  | resultInvalid
deriving DecidableEq, Repr

/-- The status `NO_ERROR` of `status_t`. -/
def NO_ERROR : Int := 0

/-- A call made by the controller to one of its collaborators, with its arguments.  A
`rfb::Rect` argument is written as a `Rect` with the same four numbers, and the
coordinates of `setCursorPos` are the `uint32_t` values the `rfb::Point` is built from. -/
inductive Call where
  | server_setPixelBuffer (pb : Option PixelBuffer) (screens : Option ScreenSet)
  | server_setScreenLayout (screens : ScreenSet)
  | server_add_changed (r : Rect)
  | server_setCursor (width height : Nat) (hotspot : Point) (buffer : Nat)
  | server_setCursorPos (x y : Nat) (warped : Bool)
  | server_announceClipboard (available : Bool)
  | pixels_setDimensionsChangedListener
  | pixels_setDisplayInfo (mode : Size) (state : Rotation) (force : Bool)
  | pixels_setWindowSize (w h : Int)
  | pixels_reset
  | pixels_imageRect (r : Rect) (stride : Int)
  | display_create (mode : Size) (state : Rotation) (w h : Int) (layerId : Int)
  | display_lockNextBuffer
  | display_unlockBuffer
  | input_keyEvent (down : Bool) (keysym : Nat)
  | input_pointerEvent (buttonMask : Int) (x y : Nat)
  | input_reconfigure (w h : Int) (touch relative : Bool)
  | input_stop
  | jni_NewSurfaceAvailable
  | jni_ResizeDisplay (w h : Int)
  | eventfd_write
deriving DecidableEq, Repr

/-- The call goes to the pixel buffer. -/
def Call.toPixels : Call → Bool
  | .pixels_setDimensionsChangedListener => true
  | .pixels_setDisplayInfo _ _ _ => true
  | .pixels_setWindowSize _ _ => true
  | .pixels_reset => true
  | .pixels_imageRect _ _ => true
  | _ => false

/-- The call goes to the viewer-server. -/
def Call.toServer : Call → Bool
  | .server_setPixelBuffer _ _ => true
  | .server_setScreenLayout _ => true
  | .server_add_changed _ => true
  | .server_setCursor _ _ _ _ => true
  | .server_setCursorPos _ _ _ => true
  | .server_announceClipboard _ => true
  | _ => false

/-- The call goes to the capture session (the virtual display and its consumer). -/
def Call.toDisplay : Call → Bool
  | .display_create _ _ _ _ _ => true
  | .display_lockNextBuffer => true
  | .display_unlockBuffer => true
  | _ => false

/-- The call goes to the input backend. -/
def Call.toInput : Call → Bool
  | .input_keyEvent _ _ => true
  | .input_pointerEvent _ _ _ => true
  | .input_reconfigure _ _ _ _ => true
  | .input_stop => true
  | _ => false

/-- The fields of the class `AndroidDesktop` that the methods below read or write.
`mServer` and `mInputDevice` record whether the pointer is non-null; `cur_buffer` is the
address passed to `setCursor`. -/
structure AndroidDesktop where
  mLayerId : Int
  _width : Int
  _height : Int
  _rotation : Int
  clipboard : Bool
  touch : Bool
  relative : Bool
  mServer : Bool
  mInputDevice : Bool
  mPixels : Option PixelBuffer
  mVirtualDisplay : Option VirtualDisplay
  mDisplayRect : Rect
  mDisplayMode : Size
  mDisplayState : Rotation
  mDisplayModeRotated : Size
  frameChanged : Bool
  cursorChanged : Bool
  clipboardChanged : Bool
  mInputChanged : Bool
  cur_width : Nat
  cur_height : Nat
  cur_hotX : Int
  cur_hotY : Int
  cur_buffer : Nat
  mFrameNumber : Nat
deriving DecidableEq, Repr

/-- The outcome of a `void` method: the calls made and the state after, or `none` when
the execution is undefined. -/
abbrev Outcome := Option (List Call × AndroidDesktop)

/-! ## Machine arithmetic -/

/-- Conversion of an `int` to `uint32_t`: the residue modulo `2 ^ 32`. -/
def toUInt32 (i : Int) : Nat := (i % 4294967296).toNat

/-- The integer nearest to `n / d`, the even one when two are equally near. -/
def roundHalfEven (n d : Nat) : Nat :=
  let q := n / d
  let r := n % d
  if 2 * r < d then q else if d < 2 * r then q + 1 else if q % 2 = 0 then q else q + 1

/-- Auxiliary for `floorLog2`: halve until below two, at most `fuel` times. -/
def floorLog2Aux : Nat → Nat → Nat
  | 0, _ => 0
  | fuel + 1, n => if n < 2 then 0 else floorLog2Aux fuel (n / 2) + 1

/-- The exponent `k` with `2 ^ k ≤ n < 2 ^ (k + 1)`, and `0` for `n = 0`. -/
def floorLog2 (n : Nat) : Nat := floorLog2Aux n n

/-- The binary32 value of `(float) n` for a natural `n`: `n` rounded to 24 significant
bits, to nearest, ties to even.  With `2 ^ k ≤ n < 2 ^ (k + 1)` the representable
neighbours of `n` are the multiples of `2 ^ (k - 23)`.  The result is a natural number. -/
def f32OfNat (n : Nat) : Nat :=
  let u := 2 ^ (floorLog2 n - 23)
  roundHalfEven n u * u

/-- The integer part of the binary32 quotient `a / b` of two binary32 values that are
natural numbers, `b` positive.  The quotient is computed scaled by `2 ^ 64`: with
`2 ^ k ≤ a * 2 ^ 64 / b < 2 ^ (k + 1)` the binary32 values around the scaled quotient are
the multiples of `u = 2 ^ (k - 23)`, the quotient rounds to
`roundHalfEven (a * 2 ^ 64) (b * u) * u`, and its integer part is that over `2 ^ 64`.
For `1 ≤ a` and `b ≤ 2 ^ 32` the scaled quotient is at least `2 ^ 32`, so `23 ≤ k`, and
the quotient is far from the subnormal and the overflow range of binary32. -/
def f32DivTrunc (a b : Nat) : Nat :=
  let u := 2 ^ (floorLog2 (a * 2 ^ 64 / b) - 23)
  roundHalfEven (a * 2 ^ 64) (b * u) * u / 2 ^ 64

/-- The statement `uint32_t v = a / ((float) r)` for a `uint32_t` value `a` and an `int`
value `r`: `a` and `r` are converted to binary32, divided in binary32, and the quotient is
truncated toward zero.  Undefined (`none`) when `r = 0` (the quotient is infinite or NaN)
or when the truncated quotient is not a `uint32_t` value. -/
def f32QuotToUInt32 (a : Nat) (r : Int) : Option Nat :=
  if r = 0 then none
  else
    let q := f32DivTrunc (f32OfNat a) (f32OfNat r.natAbs)
    if 0 < r then (if q < 4294967296 then some q else none)
    else (if q = 0 then some 0 else none)

/-- The expression `((pos - m) * dim) / ((float) rectDim)` of `pointerEvent`, stored in a
`uint32_t`: `pos` is an `int`, `m` a `uint32_t`, `dim` and `rectDim` are `int32_t`.  The
difference and the product are `uint32_t` operations. -/
def translate (pos : Int) (m : Nat) (dim rectDim : Int) : Option Nat :=
  let d := (toUInt32 pos + 4294967296 - m) % 4294967296
  let a := (d * toUInt32 dim) % 4294967296
  f32QuotToUInt32 a rectDim

/-! ## Answers of the collaborators -/

/-- The answers of `SurfaceComposerClient` to the mirror-mode queries of
`updateDisplayInfo`: the physical display ids, whether the token of the first one is
non-null, and the status and value of `getActiveDisplayMode` and `getDisplayState`. -/
structure DisplayQuery where
  ids : List Nat
  tokenPresent : Bool
  modeStatus : Int
  modeResolution : Size
  stateStatus : Int
  stateOrientation : Rotation
deriving DecidableEq, Repr

/-- The reaction of the pixel buffer to `setDisplayInfo` or `setWindowSize`: `none` when
its dimensions stay as they are, otherwise the new dimensions together with the display
rect that the `VirtualDisplay` created for them reports. -/
abbrev Resize := Option (PixelBuffer × Rect)

/-! ## The methods of `AndroidDesktop` -/

/-- The method `notify`: one write to the event file descriptor. -/
def notify (s : AndroidDesktop) : Outcome := some ([Call.eventfd_write], s)

/-- The method `computeScreenLayout`: one screen covering the pixel buffer. -/
def computeScreenLayout (s : AndroidDesktop) : Option ScreenSet :=
  match s.mPixels with
  | none => none
  | some pb => some [⟨0, 0, 0, pb.width, pb.height, 0⟩]

/-- The method `reloadInput`. -/
def reloadInput (s : AndroidDesktop) : Outcome :=
  if s.mInputDevice then
    some ([Call.input_reconfigure s.mDisplayModeRotated.width s.mDisplayModeRotated.height
            s.touch s.relative],
          { s with mInputChanged := false })
  else some ([], s)

/-- The method `onBufferDimensionsChanged`; `rect` is what `getDisplayRect` of the new
virtual display returns.  The arguments `width` and `height` are only logged. -/
def onBufferDimensionsChanged (s : AndroidDesktop) (width height : Int) (rect : Rect) :
    Outcome :=
  match s.mPixels with
  | none => none
  | some pb =>
    let s1 := { s with mVirtualDisplay := some ⟨rect⟩, mDisplayRect := rect }
    match reloadInput s1 with
    | none => none
    | some (c, s2) =>
      if s2.mServer then
        some ([Call.display_create s.mDisplayMode s.mDisplayState pb.width pb.height s.mLayerId]
                ++ c
                ++ [Call.server_setPixelBuffer (some pb) (some [⟨0, 0, 0, pb.width, pb.height, 0⟩]),
                    Call.server_setScreenLayout [⟨0, 0, 0, pb.width, pb.height, 0⟩],
                    Call.jni_NewSurfaceAvailable],
              s2)
      else none

/-- Modelled from the spec: the class `AndroidPixelBuffer` is not among the sources.  The
spec has the pixel buffer invoke `onBufferDimensionsChanged(width, height)` on its
listener when its dimensions change; here the buffer takes its new dimensions and the
controller, its registered listener, is called back before the buffer method returns. -/
def pixelsReact (s : AndroidDesktop) (r : Resize) : Outcome :=
  match r with
  | none => some ([], s)
  | some (pb, rect) =>
    onBufferDimensionsChanged { s with mPixels := some pb } pb.width pb.height rect

/-- The tail of `updateDisplayInfo` after the size and the rotation are stored: derive
the normalized size and pass the geometry to the pixel buffer when there is one. -/
def storeRotated (s : AndroidDesktop) (force : Bool) (r : Resize) :
    Option (Int × List Call × AndroidDesktop) :=
  let rotated : Bool :=
    decide (s.mDisplayState = Rotation.ROTATION_90 ∨ s.mDisplayState = Rotation.ROTATION_270)
  let s1 := { s with mDisplayModeRotated :=
    ⟨if rotated then s.mDisplayMode.height else s.mDisplayMode.width,
     if rotated then s.mDisplayMode.width else s.mDisplayMode.height⟩ }
  match s1.mPixels with
  | none => some (NO_ERROR, [], s1)
  | some _ =>
    match pixelsReact s1 r with
    | none => none
    | some (c, s2) =>
      some (NO_ERROR, Call.pixels_setDisplayInfo s1.mDisplayMode s1.mDisplayState force :: c, s2)

/-- The method `updateDisplayInfo`: the status returned, the calls and the state after. -/
def updateDisplayInfo (s : AndroidDesktop) (q : DisplayQuery) (force : Bool) (r : Resize) :
    Option (Int × List Call × AndroidDesktop) :=
  if s.mLayerId = 0 then
    if q.ids = [] then some (-1, [], s)
    else if q.tokenPresent = false then some (-1, [], s)
    else if q.modeStatus ≠ NO_ERROR then some (q.modeStatus, [], s)
    else
      let s1 := { s with mDisplayMode := q.modeResolution }
      if q.stateStatus ≠ NO_ERROR then some (q.stateStatus, [], s1)
      else storeRotated { s1 with mDisplayState := q.stateOrientation } force r
  else if 0 < s._width ∧ 0 < s._height ∧ -1 < s._rotation then
    storeRotated
      { s with
        mDisplayMode := ⟨s._width, s._height⟩,
        mDisplayState :=
          if s._rotation = 270 then Rotation.ROTATION_270
          else if s._rotation = 180 then Rotation.ROTATION_180
          else if s._rotation = 90 then Rotation.ROTATION_90
          else Rotation.ROTATION_0 }
      force r
  else some (-1, [], s)

/-- The method `start`; `pb` is the freshly constructed pixel buffer. -/
def start (s : AndroidDesktop) (pb : PixelBuffer) (q : DisplayQuery) (r : Resize) : Outcome :=
  let s1 := { s with mServer := true, mInputDevice := true, mPixels := some pb }
  match updateDisplayInfo s1 q true r with
  | none => none
  | some (status, c, s2) =>
    if status ≠ NO_ERROR then some (Call.pixels_setDimensionsChangedListener :: c, s2)
    else
      match s2.mPixels, computeScreenLayout s2 with
      | some pb2, some screens =>
        some (Call.pixels_setDimensionsChangedListener :: c
                ++ [Call.server_setPixelBuffer (some pb2) (some screens)], s2)
      | _, _ => none

/-- The method `stop`. -/
def stop (s : AndroidDesktop) : Outcome :=
  if s.mServer = false then none
  else
    match s.mPixels with
    | none => none
    | some _ =>
      if s.mInputDevice = false then none
      else
        some ([Call.server_setPixelBuffer none none, Call.pixels_reset, Call.input_stop,
               Call.jni_NewSurfaceAvailable],
              { s with mVirtualDisplay := none, mPixels := none })

/-- The method `notifyClipboardChanged`. -/
def notifyClipboardChanged (s : AndroidDesktop) : Outcome :=
  notify { s with clipboardChanged := true }

/-- The method `processClipboard`. -/
def processClipboard (s : AndroidDesktop) : Outcome :=
  if s.clipboardChanged = false then some ([], s)
  else
    let s1 := { s with clipboardChanged := false }
    if s1.mServer then some ([Call.server_announceClipboard s1.clipboard], s1)
    else some ([], s1)

/-- The method `setCursor`. -/
def setCursor (s : AndroidDesktop) (width height : Nat) (hotX hotY : Int) (buffer : Nat) :
    Outcome :=
  notify { s with
    cur_width := width, cur_height := height, cur_buffer := buffer,
    cur_hotX := hotX, cur_hotY := hotY, cursorChanged := true }

/-- The method `processCursor`. -/
def processCursor (s : AndroidDesktop) : Outcome :=
  if s.cursorChanged = false then some ([], s)
  else
    let s1 := { s with cursorChanged := false }
    if s1.mServer then
      some ([Call.server_setCursor s1.cur_width s1.cur_height ⟨s1.cur_hotX, s1.cur_hotY⟩
              s1.cur_buffer], s1)
    else none

/-- The method `processFrames`; `lock` is the answer of `lockNextBuffer`, `none` for a
status other than `OK`. -/
def processFrames (s : AndroidDesktop) (q : DisplayQuery) (r : Resize)
    (lock : Option LockedBuffer) : Outcome :=
  if s.frameChanged = false then some ([], s)
  else if s.mVirtualDisplay = none then some ([], s)
  else if s.mPixels = none then some ([], s)
  else
    match updateDisplayInfo { s with frameChanged := false } q false r with
    | none => none
    | some (_, c, s1) =>
      match s1.mVirtualDisplay, lock with
      | none, _ => none
      | some _, none => some (c ++ [Call.display_lockNextBuffer], s1)
      | some _, some img =>
        if s1.mPixels = none then none
        else if s1.mServer = false then none
        else
          some (c ++ [Call.display_lockNextBuffer,
                      Call.pixels_imageRect ⟨0, 0, img.width, img.height⟩ img.stride,
                      Call.display_unlockBuffer,
                      Call.server_add_changed ⟨0, 0, img.width, img.height⟩],
                { s1 with mFrameNumber := img.frameNumber })

/-- The method `setScreenLayout`: the result returned, the calls and the state after. -/
def setScreenLayout (s : AndroidDesktop) (reqWidth reqHeight : Int) (_layout : ScreenSet)
    (r : Resize) : Option (ScreenResult × List Call × AndroidDesktop) :=
  if s.mLayerId < 0 then
    some (ScreenResult.resultInvalid, [Call.jni_ResizeDisplay reqWidth reqHeight], s)
  else if reqWidth = s.mDisplayRect.getWidth ∧ reqHeight = s.mDisplayRect.getHeight then
    some (ScreenResult.resultInvalid, [], s)
  else if 0 < reqWidth ∧ 0 < reqHeight then
    if s.mPixels = none then none
    else
      match pixelsReact s r with
      | none => none
      | some (c, s1) =>
        match s1.mPixels with
        | none => none
        | some pb =>
          if s1.mServer then
            some (ScreenResult.resultSuccess,
                  Call.pixels_setWindowSize reqWidth reqHeight :: c
                    ++ [Call.server_setScreenLayout [⟨0, 0, 0, pb.width, pb.height, 0⟩]],
                  s1)
          else none
  else some (ScreenResult.resultInvalid, [], s)

/-- The method `onFrameAvailable`. -/
def onFrameAvailable (s : AndroidDesktop) : Outcome :=
  notify { s with frameChanged := true }

/-- The method `keyEvent`. -/
def keyEvent (s : AndroidDesktop) (keysym : Nat) (down : Bool) : Outcome :=
  if s.mInputDevice then some ([Call.input_keyEvent down keysym], s) else none

/-- The method `pointerEvent`. -/
def pointerEvent (s : AndroidDesktop) (pos : Point) (buttonMask : Int) : Outcome :=
  if pos.x < s.mDisplayRect.left ∨ pos.x > s.mDisplayRect.right ∨ pos.y < s.mDisplayRect.top ∨
      pos.y > s.mDisplayRect.bottom then
    some ([], s)
  else
    match s.mPixels with
    | none => none
    | some pb =>
      let mx := toUInt32 (Int.tdiv (pb.width - s.mDisplayRect.getWidth) 2)
      let my := toUInt32 (Int.tdiv (pb.height - s.mDisplayRect.getHeight) 2)
      match translate pos.x mx s.mDisplayModeRotated.width s.mDisplayRect.getWidth,
            translate pos.y my s.mDisplayModeRotated.height s.mDisplayRect.getHeight with
      | some x, some y =>
        if s.mServer = false then none
        else if s.mInputDevice = false then none
        else some ([Call.server_setCursorPos x y false, Call.input_pointerEvent buttonMask x y], s)
      | _, _ => none

/-- The method `notifyInputChanged`. -/
def notifyInputChanged (s : AndroidDesktop) : Outcome :=
  notify { s with mInputChanged := true }

/-- The method `processInputChanged`. -/
def processInputChanged (s : AndroidDesktop) : Outcome :=
  if s.mInputChanged then reloadInput s else some ([], s)

/-- The arguments of one `setCursor` call. -/
structure CursorArgs where
  width : Nat
  height : Nat
  hotX : Int
  hotY : Int
  buffer : Nat
deriving DecidableEq, Repr

/-- A sequence of `setCursor` calls, one after the other. -/
def setCursors (s : AndroidDesktop) : List CursorArgs → Outcome
  | [] => some ([], s)
  | a :: rest =>
    match setCursor s a.width a.height a.hotX a.hotY a.buffer with
    | none => none
    | some (c, s1) =>
      match setCursors s1 rest with
      | none => none
      | some (c2, s2) => some (c ++ c2, s2)

/-! ## Predicates of the statements -/

/-- The resources that `start` sets up and `stop` releases are present. -/
def AndroidDesktop.started (s : AndroidDesktop) : Prop :=
  s.mServer = true ∧ s.mInputDevice = true ∧ s.mPixels ≠ none

/-- The normalized size of a display size under a rotation, in the words of the spec:
width and height swapped for rotation 90 and 270, kept for rotation 0 and 180. -/
def normalizedSize (mode : Size) (rotation : Rotation) : Size :=
  match rotation with
  | Rotation.ROTATION_90 => ⟨mode.height, mode.width⟩
  | Rotation.ROTATION_270 => ⟨mode.height, mode.width⟩
  | Rotation.ROTATION_0 => ⟨mode.width, mode.height⟩
  | Rotation.ROTATION_180 => ⟨mode.width, mode.height⟩

/-- The display rect is centred in the pixel buffer `pb`: its left and top edges are the
offsets `(pb.width - getWidth) / 2` and `(pb.height - getHeight) / 2` that `pointerEvent`
computes. -/
def Rect.centredIn (r : Rect) (pb : PixelBuffer) : Prop :=
  r.left = Int.tdiv (pb.width - r.getWidth) 2 ∧ r.top = Int.tdiv (pb.height - r.getHeight) 2

/-- The natural number `n` is a binary32 value: converting it to `float` changes nothing.
Every `n < 2 ^ 24` is one. -/
def f32Exact (n : Nat) : Prop := f32OfNat n = n

/-! ## Example states -/

/-- A headless controller (layer id 1) for a 1080x1920 panel at rotation 90, running
with a 1920x1080 pixel buffer that the display rect covers. -/
def landscapeDesktop : AndroidDesktop where
  mLayerId := 1
  _width := 1080
  _height := 1920
  _rotation := 90
  clipboard := true
  touch := true
  relative := false
  mServer := true
  mInputDevice := true
  mPixels := some ⟨1920, 1080⟩
  mVirtualDisplay := some ⟨⟨0, 0, 1920, 1080⟩⟩
  mDisplayRect := ⟨0, 0, 1920, 1080⟩
  mDisplayMode := ⟨1080, 1920⟩
  mDisplayState := Rotation.ROTATION_90
  mDisplayModeRotated := ⟨1920, 1080⟩
  frameChanged := false
  cursorChanged := false
  clipboardChanged := false
  mInputChanged := false
  cur_width := 0
  cur_height := 0
  cur_hotX := 0
  cur_hotY := 0
  cur_buffer := 0
  mFrameNumber := 0

/-- A mirror-mode controller (layer id 0) whose stored geometry is a 1080x1920 display
at rotation 0. -/
def mirrorDesktop : AndroidDesktop :=
  { landscapeDesktop with
    mLayerId := 0
    mPixels := some ⟨1080, 1920⟩
    mVirtualDisplay := some ⟨⟨0, 0, 1080, 1920⟩⟩
    mDisplayRect := ⟨0, 0, 1080, 1920⟩
    mDisplayMode := ⟨1080, 1920⟩
    mDisplayState := Rotation.ROTATION_0
    mDisplayModeRotated := ⟨1080, 1920⟩ }

/-- Answers of the display service in which the active mode is read (1920x1080) and the
display state query then fails with status `-32`. -/
def stateQueryFails : DisplayQuery where
  ids := [0]
  tokenPresent := true
  modeStatus := 0
  modeResolution := ⟨1920, 1080⟩
  stateStatus := -32
  stateOrientation := Rotation.ROTATION_0

/-- Answers of the display service with every query successful: 1080x1920, rotation 0. -/
def queryOk : DisplayQuery where
  ids := [0]
  tokenPresent := true
  modeStatus := 0
  modeResolution := ⟨1080, 1920⟩
  stateStatus := 0
  stateOrientation := Rotation.ROTATION_0

/-- The headless controller of `landscapeDesktop` before its geometry is resolved. -/
def unresolvedDesktop : AndroidDesktop :=
  { landscapeDesktop with
    mPixels := none
    mVirtualDisplay := none
    mDisplayRect := ⟨0, 0, 0, 0⟩
    mDisplayMode := ⟨0, 0⟩
    mDisplayState := Rotation.ROTATION_0
    mDisplayModeRotated := ⟨0, 0⟩ }

/-- The state `unresolvedDesktop` with its geometry resolved: 1080x1920 at rotation 90,
normalized size 1920x1080. -/
def resolvedDesktop : AndroidDesktop :=
  { unresolvedDesktop with
    mDisplayMode := ⟨1080, 1920⟩
    mDisplayState := Rotation.ROTATION_90
    mDisplayModeRotated := ⟨1920, 1080⟩ }

/-- Answers of the display service with every query successful: 1920x1080, rotation 270. -/
def queryRotated : DisplayQuery where
  ids := [0]
  tokenPresent := true
  modeStatus := 0
  modeResolution := ⟨1920, 1080⟩
  stateStatus := 0
  stateOrientation := Rotation.ROTATION_270

/-- The state `skewedDesktop` with its geometry resolved: 1080x1920 at rotation 0,
normalized size 1080x1920. -/
def skewedResolved : AndroidDesktop :=
  { unresolvedDesktop with
    _rotation := 45
    mDisplayMode := ⟨1080, 1920⟩
    mDisplayState := Rotation.ROTATION_0
    mDisplayModeRotated := ⟨1080, 1920⟩ }

/-- A headless controller whose externally supplied rotation is 45. -/
def skewedDesktop : AndroidDesktop :=
  { unresolvedDesktop with _rotation := 45 }

/-- A headless controller whose externally supplied width is unset. -/
def unsetDesktop : AndroidDesktop :=
  { unresolvedDesktop with _width := -1 }

/-- The running headless controller with every dirty flag set. -/
def dirtyDesktop : AndroidDesktop :=
  { landscapeDesktop with
    frameChanged := true
    cursorChanged := true
    clipboardChanged := true
    mInputChanged := true
    cur_width := 24
    cur_height := 24
    cur_hotX := 3
    cur_hotY := 4
    cur_buffer := 4096 }

/-- A frame of 1920x1080 pixels with a stride of 1920. -/
def frame7 : LockedBuffer where
  frameNumber := 7
  width := 1920
  height := 1080
  stride := 1920

/-- Three cursor updates, the last one 32x32 with hotspot (5, 6) at address 12288. -/
def threeCursors : List CursorArgs :=
  [⟨16, 16, 0, 0, 4096⟩, ⟨24, 24, 1, 2, 8192⟩, ⟨32, 32, 5, 6, 12288⟩]

/-- A running controller whose 960x540 display rect sits in the top left corner of the
1920x1080 pixel buffer instead of its middle. -/
def cornerDesktop : AndroidDesktop :=
  { landscapeDesktop with
    mVirtualDisplay := some ⟨⟨0, 0, 960, 540⟩⟩
    mDisplayRect := ⟨0, 0, 960, 540⟩ }

/-- A running controller with a 1024x1024 pixel buffer, a 512x512 display rect in its top
left corner and a 512x512 normalized device size. -/
def squareCornerDesktop : AndroidDesktop :=
  { landscapeDesktop with
    _width := 512
    _height := 512
    _rotation := 0
    mPixels := some ⟨1024, 1024⟩
    mVirtualDisplay := some ⟨⟨0, 0, 512, 512⟩⟩
    mDisplayRect := ⟨0, 0, 512, 512⟩
    mDisplayMode := ⟨512, 512⟩
    mDisplayState := Rotation.ROTATION_0
    mDisplayModeRotated := ⟨512, 512⟩ }

/-- A running controller with a 2x2 pixel buffer that the display rect covers and a
device of 33554434x2 pixels. -/
def wideDesktop : AndroidDesktop :=
  { landscapeDesktop with
    _width := 33554434
    _height := 2
    _rotation := 0
    mPixels := some ⟨2, 2⟩
    mVirtualDisplay := some ⟨⟨0, 0, 2, 2⟩⟩
    mDisplayRect := ⟨0, 0, 2, 2⟩
    mDisplayMode := ⟨33554434, 2⟩
    mDisplayState := Rotation.ROTATION_0
    mDisplayModeRotated := ⟨33554434, 2⟩ }

/-- A running controller with a 1x1 pixel buffer that the display rect covers and a
device of 16777219x1 pixels. -/
def hugeDesktop : AndroidDesktop :=
  { landscapeDesktop with
    _width := 16777219
    _height := 1
    _rotation := 0
    mPixels := some ⟨1, 1⟩
    mVirtualDisplay := some ⟨⟨0, 0, 1, 1⟩⟩
    mDisplayRect := ⟨0, 0, 1, 1⟩
    mDisplayMode := ⟨16777219, 1⟩
    mDisplayState := Rotation.ROTATION_0
    mDisplayModeRotated := ⟨16777219, 1⟩ }

/-- A running controller with a 1920x1080 pixel buffer in which the 608x1080 display rect
of a portrait device is centred. -/
def letterboxDesktop : AndroidDesktop :=
  { landscapeDesktop with
    _rotation := 0
    mVirtualDisplay := some ⟨⟨656, 0, 1264, 1080⟩⟩
    mDisplayRect := ⟨656, 0, 1264, 1080⟩
    mDisplayState := Rotation.ROTATION_0
    mDisplayModeRotated := ⟨1080, 1920⟩ }

/-! ## Properties -/

/-! ### Binary32 arithmetic -/

/-- With enough fuel the halving count brackets `n` between two powers of two. -/
theorem floorLog2Aux_spec (fuel : Nat) : ∀ n, n ≤ fuel → n ≠ 0 →
    2 ^ floorLog2Aux fuel n ≤ n ∧ n < 2 ^ (floorLog2Aux fuel n + 1) := by
  induction fuel with
  | zero => intro n h h0; omega
  | succ f ih =>
    intro n h h0
    unfold floorLog2Aux
    by_cases h2 : n < 2
    · rw [if_pos h2]
      simp
      omega
    · rw [if_neg h2]
      have := ih (n / 2) (by omega) (by omega)
      obtain ⟨h3, h4⟩ := this
      constructor
      · rw [pow_succ]; omega
      · rw [pow_succ]; omega

/-- Lower bracket: `2 ^ floorLog2 n ≤ n` for positive `n`. -/
theorem floorLog2_le (n : Nat) (h0 : n ≠ 0) : 2 ^ floorLog2 n ≤ n :=
  (floorLog2Aux_spec n n le_rfl h0).1

/-- Upper bracket: `n < 2 ^ (floorLog2 n + 1)`. -/
theorem floorLog2_lt (n : Nat) : n < 2 ^ (floorLog2 n + 1) := by
  by_cases h0 : n = 0
  · subst h0; simp
  · exact (floorLog2Aux_spec n n le_rfl h0).2

/-- The exponent that brackets `n` is `floorLog2 n`. -/
theorem floorLog2_unique (n k : Nat) (h1 : 2 ^ k ≤ n) (h2 : n < 2 ^ (k + 1)) :
    floorLog2 n = k := by
  have h0 : n ≠ 0 := by
    have : 0 < 2 ^ k := by positivity
    omega
  have h3 := floorLog2_le n h0
  have h4 := floorLog2_lt n
  have a : floorLog2 n < k + 1 := by
    by_contra hc
    have : 2 ^ (k + 1) ≤ 2 ^ floorLog2 n := Nat.pow_le_pow_right (by norm_num) (by omega)
    omega
  have b : k < floorLog2 n + 1 := by
    by_contra hc
    have : 2 ^ (floorLog2 n + 1) ≤ 2 ^ k := Nat.pow_le_pow_right (by norm_num) (by omega)
    omega
  omega

/-- Rounding an exact multiple gives the multiplier. -/
theorem roundHalfEven_mul (q d : Nat) (hd : 0 < d) : roundHalfEven (q * d) d = q := by
  unfold roundHalfEven
  simp [Nat.mul_div_cancel _ hd, hd]

/-- Rounding moves up by at most half a step. -/
theorem roundHalfEven_upper (n d : Nat) (hd : 0 < d) :
    2 * (roundHalfEven n d * d) ≤ 2 * n + d := by
  unfold roundHalfEven
  have h1 := Nat.div_add_mod n d
  have h2 := Nat.mod_lt n hd
  have h3 : n / d * d = d * (n / d) := Nat.mul_comm _ _
  simp only
  split_ifs
  · omega
  · rw [Nat.add_mul]; omega
  · omega
  · rw [Nat.add_mul]; omega

/-- Rounding moves down by at most half a step. -/
theorem roundHalfEven_lower (n d : Nat) (hd : 0 < d) :
    2 * n ≤ 2 * (roundHalfEven n d * d) + d := by
  unfold roundHalfEven
  have h1 := Nat.div_add_mod n d
  have h2 := Nat.mod_lt n hd
  have h3 : n / d * d = d * (n / d) := Nat.mul_comm _ _
  simp only
  split_ifs
  · omega
  · rw [Nat.add_mul]; omega
  · omega
  · rw [Nat.add_mul]; omega

/-- Naturals below `2 ^ 24` are binary32 values. -/
theorem f32OfNat_small (n : Nat) (h : n < 2 ^ 24) : f32OfNat n = n := by
  unfold f32OfNat
  have hk : floorLog2 n - 23 = 0 := by
    by_cases h0 : n = 0
    · subst h0; simp [floorLog2, floorLog2Aux]
    · have h1 := floorLog2_le n h0
      have : floorLog2 n < 24 := by
        by_contra hc
        have : 2 ^ 24 ≤ 2 ^ floorLog2 n := Nat.pow_le_pow_right (by norm_num) (by omega)
        omega
      omega
  simp only [hk, pow_zero, mul_one]
  have := roundHalfEven_mul n 1 (by norm_num)
  simpa using this

/-- A binary32 natural is a multiple of the step at its magnitude. -/
theorem f32OfNat_exact_dvd (n : Nat) (h : f32OfNat n = n) :
    ∃ j, n = j * 2 ^ (floorLog2 n - 23) := by
  unfold f32OfNat at h
  exact ⟨roundHalfEven n (2 ^ (floorLog2 n - 23)), h.symm⟩

/-- When the exact quotient `a / b` is `n / 2` for a binary32 natural `n`, the binary32
division is exact and truncates to the integer half of `n`. -/
theorem f32DivTrunc_half (a b n : Nat) (hb : 0 < b) (hab : 2 * a = n * b)
    (hn : f32OfNat n = n) : f32DivTrunc a b = n / 2 := by
  by_cases h0 : n = 0
  · subst h0
    have ha : a = 0 := by omega
    subst ha
    simp [f32DivTrunc, roundHalfEven, floorLog2, floorLog2Aux]
  · have hA : a * 2 ^ 64 = n * 2 ^ 63 * b := by
      have : a * 2 ^ 64 = (2 * a) * 2 ^ 63 := by ring
      rw [this, hab]; ring
    have hq : a * 2 ^ 64 / b = n * 2 ^ 63 := by
      rw [hA]; exact Nat.mul_div_cancel _ hb
    have hl1 := floorLog2_le n h0
    have hl2 := floorLog2_lt n
    have hk : floorLog2 (n * 2 ^ 63) = floorLog2 n + 63 := by
      apply floorLog2_unique
      · rw [pow_add]; exact Nat.mul_le_mul_right _ hl1
      · have : 2 ^ (floorLog2 n + 63 + 1) = 2 ^ (floorLog2 n + 1) * 2 ^ 63 := by ring
        rw [this]
        exact Nat.mul_lt_mul_of_pos_right hl2 (by positivity)
    obtain ⟨j, hj⟩ := f32OfNat_exact_dvd n hn
    unfold f32DivTrunc
    simp only [hq, hk]
    generalize hl : floorLog2 n = l at *
    have hu : 2 ^ (l - 23) * 2 ^ 63
        = 2 ^ (l + 63 - 23) * 2 ^ (l - 23 + 63 - (l + 63 - 23)) := by
      rw [← pow_add, ← pow_add]
      congr 1
      omega
    have hm : a * 2 ^ 64
        = (j * 2 ^ (l - 23 + 63 - (l + 63 - 23))) * (b * 2 ^ (l + 63 - 23)) := by
      rw [hA]
      calc n * 2 ^ 63 * b = j * (2 ^ (l - 23) * 2 ^ 63) * b := by rw [hj]; ring
        _ = _ := by rw [hu]; ring
    rw [hm, roundHalfEven_mul _ _ (by positivity)]
    have h5 : j * 2 ^ (l - 23 + 63 - (l + 63 - 23)) * 2 ^ (l + 63 - 23) = n * 2 ^ 63 := by
      calc _ = j * (2 ^ (l + 63 - 23) * 2 ^ (l - 23 + 63 - (l + 63 - 23))) := by ring
        _ = j * (2 ^ (l - 23) * 2 ^ 63) := by rw [hu]
        _ = n * 2 ^ 63 := by rw [hj]; ring
    rw [h5]
    have h6 : (2:Nat) ^ 64 = 2 ^ 63 * 2 := by norm_num
    rw [h6, Nat.mul_comm n, Nat.mul_div_mul_left _ _ (by positivity)]

/-- Zero divided by anything truncates to zero. -/
theorem f32DivTrunc_zero (b : Nat) : f32DivTrunc 0 b = 0 := by
  simp [f32DivTrunc, roundHalfEven, floorLog2, floorLog2Aux]

/-- The step between the binary32 values around `n` is at most `n / 2 ^ 23`, or it is one. -/
theorem step_le (n : Nat) (h0 : n ≠ 0) :
    2 ^ 23 * 2 ^ (floorLog2 n - 23) ≤ n ∨ floorLog2 n - 23 = 0 := by
  by_cases hk : 23 ≤ floorLog2 n
  · left
    rw [← pow_add]
    have : 23 + (floorLog2 n - 23) = floorLog2 n := by omega
    rw [this]
    exact floorLog2_le n h0
  · right; omega

/-- Conversion to binary32 increases a natural by at most one part in `2 ^ 24`. -/
theorem f32OfNat_upper (n : Nat) : 16777216 * f32OfNat n ≤ 16777217 * n := by
  by_cases h0 : n = 0
  · subst h0; simp [f32OfNat, roundHalfEven, floorLog2, floorLog2Aux]
  · unfold f32OfNat
    simp only
    rcases step_le n h0 with h | h
    · have hu : 0 < 2 ^ (floorLog2 n - 23) := by positivity
      have := roundHalfEven_upper n _ hu
      norm_num at h
      omega
    · rw [h]
      have := roundHalfEven_mul n 1 (by norm_num)
      simp at this
      simp only [pow_zero, mul_one, this]
      omega

/-- Conversion to binary32 decreases a natural by at most one part in `2 ^ 24`. -/
theorem f32OfNat_lower (n : Nat) : 16777215 * n ≤ 16777216 * f32OfNat n := by
  by_cases h0 : n = 0
  · subst h0; simp
  · unfold f32OfNat
    simp only
    rcases step_le n h0 with h | h
    · have hu : 0 < 2 ^ (floorLog2 n - 23) := by positivity
      have := roundHalfEven_lower n _ hu
      norm_num at h
      omega
    · rw [h]
      have := roundHalfEven_mul n 1 (by norm_num)
      simp at this
      simp only [pow_zero, mul_one, this]
      omega

/-- The binary32 quotient, before truncation, exceeds the exact one by at most one part in
`2 ^ 24`. -/
theorem f32Div_upper (a b : Nat) (ha : 0 < a) (hb : 0 < b) (hb2 : b ≤ 2 ^ 40) :
    16777216 * (roundHalfEven (a * 2 ^ 64) (b * 2 ^ (floorLog2 (a * 2 ^ 64 / b) - 23))
        * 2 ^ (floorLog2 (a * 2 ^ 64 / b) - 23) * b)
      ≤ 16777217 * (a * 2 ^ 64) := by
  have hq : 2 ^ 24 ≤ a * 2 ^ 64 / b := by
    rw [Nat.le_div_iff_mul_le hb]
    calc 2 ^ 24 * b ≤ 2 ^ 24 * 2 ^ 40 := Nat.mul_le_mul_left _ hb2
      _ = 1 * 2 ^ 64 := by norm_num
      _ ≤ a * 2 ^ 64 := Nat.mul_le_mul_right _ ha
  have hq0 : a * 2 ^ 64 / b ≠ 0 := by
    have : 0 < 2 ^ 24 := by norm_num
    omega
  have hk := floorLog2_le _ hq0
  have hk2 := floorLog2_lt (a * 2 ^ 64 / b)
  generalize floorLog2 (a * 2 ^ 64 / b) = k at *
  have hk23 : 23 ≤ k := by
    by_contra hc
    have : 2 ^ (k + 1) ≤ 2 ^ 24 := Nat.pow_le_pow_right (by norm_num) (by omega)
    omega
  have hbk : b * 2 ^ k ≤ a * 2 ^ 64 := by
    calc b * 2 ^ k ≤ b * (a * 2 ^ 64 / b) := Nat.mul_le_mul_left _ hk
      _ ≤ a * 2 ^ 64 := Nat.mul_div_le _ _
  have hsplit : b * 2 ^ k = 8388608 * (b * 2 ^ (k - 23)) := by
    have : k = 23 + (k - 23) := by omega
    conv_lhs => rw [this, pow_add]
    ring
  have hpos : 0 < b * 2 ^ (k - 23) := by positivity
  have hr := roundHalfEven_upper (a * 2 ^ 64) (b * 2 ^ (k - 23)) hpos
  generalize roundHalfEven (a * 2 ^ 64) (b * 2 ^ (k - 23)) = m at *
  have e : m * 2 ^ (k - 23) * b = m * (b * 2 ^ (k - 23)) := by ring
  rw [e]
  generalize m * (b * 2 ^ (k - 23)) = R at *
  generalize b * 2 ^ (k - 23) = U at *
  generalize a * 2 ^ 64 = A at *
  omega

/-- Three roundings of at most one part in `2 ^ 24` each cannot lift a quotient that is at
most `nW ≤ 2 ^ 22` to `nW + 1`. -/
theorem quotient_bound (R fa fb rw nW : Nat)
    (h1 : 16777216 * (R * fb) ≤ 16777217 * (fa * 2 ^ 64))
    (h2 : 16777216 * fa ≤ 16777217 * (rw * nW))
    (h3 : 16777215 * rw ≤ 16777216 * fb) (hrw : 0 < rw) (hn : nW ≤ 4194304) :
    R / 2 ^ 64 ≤ nW := by
  by_contra hc
  have hR : (nW + 1) * 2 ^ 64 ≤ R := by
    have : nW + 1 ≤ R / 2 ^ 64 := by omega
    exact (Nat.le_div_iff_mul_le (by positivity)).1 this
  have c1 : (16777216 * ((nW + 1) * fb)) * 2 ^ 64 ≤ (16777217 * fa) * 2 ^ 64 := by
    calc (16777216 * ((nW + 1) * fb)) * 2 ^ 64 = 16777216 * ((nW + 1) * 2 ^ 64 * fb) := by ring
      _ ≤ 16777216 * (R * fb) := by gcongr
      _ ≤ 16777217 * (fa * 2 ^ 64) := h1
      _ = (16777217 * fa) * 2 ^ 64 := by ring
  have c2 : 16777216 * ((nW + 1) * fb) ≤ 16777217 * fa :=
    Nat.le_of_mul_le_mul_right c1 (by positivity)
  have c3 : (16777216 * 16777215 * (nW + 1)) * rw ≤ (16777217 * 16777217 * nW) * rw := by
    calc (16777216 * 16777215 * (nW + 1)) * rw
        = 16777216 * ((nW + 1) * (16777215 * rw)) := by ring
      _ ≤ 16777216 * ((nW + 1) * (16777216 * fb)) := by gcongr
      _ = 16777216 * (16777216 * ((nW + 1) * fb)) := by ring
      _ ≤ 16777216 * (16777217 * fa) := by gcongr
      _ = 16777217 * (16777216 * fa) := by ring
      _ ≤ 16777217 * (16777217 * (rw * nW)) := by gcongr
      _ = (16777217 * 16777217 * nW) * rw := by ring
  have c4 := Nat.le_of_mul_le_mul_right c3 hrw
  omega

/-- C1: a pointer event outside the display rect is dropped: no call is made, to the input
backend or to anything else, and the controller state is unchanged. -/
theorem pointerEvent_outside_dropped (s : AndroidDesktop) (pos : Point) (buttonMask : Int)
    (h : pos.x < s.mDisplayRect.left ∨ pos.x > s.mDisplayRect.right ∨
      pos.y < s.mDisplayRect.top ∨ pos.y > s.mDisplayRect.bottom) :
    pointerEvent s pos buttonMask = some ([], s) := by
  unfold pointerEvent
  rw [if_pos h]

/-- Witness of C1: the pointer (1921, 10) against the display rect (0, 0, 1920, 1080). -/
theorem pointerEvent_outside_dropped_witness :
    pointerEvent landscapeDesktop ⟨1921, 10⟩ 1 = some ([], landscapeDesktop) :=
  pointerEvent_outside_dropped landscapeDesktop ⟨1921, 10⟩ 1 (by decide)

/-! ### Geometry resolution -/

/-- The callback `onBufferDimensionsChanged` leaves the stored geometry and the frame flag
as they are. -/
theorem onBufferDimensionsChanged_geometry (s : AndroidDesktop) (w h : Int) (rect : Rect)
    (c : List Call) (s1 : AndroidDesktop)
    (h1 : onBufferDimensionsChanged s w h rect = some (c, s1)) :
    s1.mDisplayMode = s.mDisplayMode ∧ s1.mDisplayState = s.mDisplayState ∧
      s1.mDisplayModeRotated = s.mDisplayModeRotated ∧ s1.frameChanged = s.frameChanged := by
  unfold onBufferDimensionsChanged reloadInput at h1
  cases hp : s.mPixels with
  | none => simp [hp] at h1
  | some pb =>
    simp only [hp] at h1
    by_cases hi : s.mInputDevice = true <;> by_cases hs : s.mServer = true <;>
      simp [hi, hs] at h1 <;> obtain ⟨-, rfl⟩ := h1 <;> simp

/-- The reaction of the pixel buffer leaves the stored geometry and the frame flag as they
are. -/
theorem pixelsReact_geometry (s : AndroidDesktop) (r : Resize) (c : List Call)
    (s1 : AndroidDesktop) (h1 : pixelsReact s r = some (c, s1)) :
    s1.mDisplayMode = s.mDisplayMode ∧ s1.mDisplayState = s.mDisplayState ∧
      s1.mDisplayModeRotated = s.mDisplayModeRotated ∧ s1.frameChanged = s.frameChanged := by
  unfold pixelsReact at h1
  cases r with
  | none =>
    simp at h1
    obtain ⟨-, rfl⟩ := h1
    simp
  | some p =>
    obtain ⟨pb, rect⟩ := p
    simp only at h1
    exact onBufferDimensionsChanged_geometry { s with mPixels := some pb } _ _ _ _ _ h1

/-- After `storeRotated` the normalized size is the one of the stored size and rotation,
which are those of the state it was called on. -/
theorem storeRotated_spec (s : AndroidDesktop) (force : Bool) (r : Resize) (status : Int)
    (c : List Call) (s1 : AndroidDesktop) (h1 : storeRotated s force r = some (status, c, s1)) :
    status = NO_ERROR ∧ s1.mDisplayMode = s.mDisplayMode ∧ s1.mDisplayState = s.mDisplayState ∧
      s1.mDisplayModeRotated = normalizedSize s.mDisplayMode s.mDisplayState ∧
      s1.frameChanged = s.frameChanged := by
  unfold storeRotated at h1
  cases hp : s.mPixels with
  | none =>
    simp [hp] at h1
    obtain ⟨rfl, -, rfl⟩ := h1
    cases hr : s.mDisplayState <;> simp [normalizedSize, hr]
  | some pb =>
    simp only [hp] at h1
    split at h1
    · simp at h1
    · rename_i c2 s2 h2
      simp at h1
      obtain ⟨rfl, -, rfl⟩ := h1
      have h3 := pixelsReact_geometry _ _ _ _ h2
      simp only at h3
      obtain ⟨e1, e2, e3, e4⟩ := h3
      refine ⟨rfl, e1, e2, ?_, e4⟩
      rw [e3]
      cases hr : s.mDisplayState <;> simp [normalizedSize, hr]

/-- Whenever `updateDisplayInfo` returns `NO_ERROR`, the stored size and rotation are the
ones resolved by this call (the answers of the display service in mirror mode, the
supplied values in headless mode) and the stored normalized size is the one of that size
and rotation. -/
theorem updateDisplayInfo_resolved (s : AndroidDesktop) (q : DisplayQuery) (force : Bool)
    (r : Resize) (c : List Call) (s1 : AndroidDesktop)
    (h1 : updateDisplayInfo s q force r = some (NO_ERROR, c, s1)) :
    (s.mLayerId = 0 →
        s1.mDisplayMode = q.modeResolution ∧ s1.mDisplayState = q.stateOrientation) ∧
      (s.mLayerId ≠ 0 →
        s1.mDisplayMode = ⟨s._width, s._height⟩ ∧
        s1.mDisplayState =
          (if s._rotation = 270 then Rotation.ROTATION_270
           else if s._rotation = 180 then Rotation.ROTATION_180
           else if s._rotation = 90 then Rotation.ROTATION_90
           else Rotation.ROTATION_0)) ∧
      s1.mDisplayModeRotated = normalizedSize s1.mDisplayMode s1.mDisplayState := by
  unfold updateDisplayInfo at h1
  split at h1
  · rename_i hl
    split at h1
    · simp [NO_ERROR] at h1
    · split at h1
      · simp [NO_ERROR] at h1
      · split at h1
        · rename_i hm
          simp at h1
          exact absurd h1.1 hm
        · split at h1
          · rename_i hm
            simp at h1
            exact absurd h1.1 hm
          · obtain ⟨-, e1, e2, e3, -⟩ := storeRotated_spec _ _ _ _ _ _ h1
            simp only at e1 e2 e3
            refine ⟨fun _ => ⟨e1, e2⟩, fun h => absurd hl h, ?_⟩
            rw [e1, e2, e3]
  · rename_i hl
    split at h1
    · obtain ⟨-, e1, e2, e3, -⟩ := storeRotated_spec _ _ _ _ _ _ h1
      simp only at e1 e2 e3
      refine ⟨fun h => absurd h hl, fun _ => ⟨e1, e2⟩, ?_⟩
      rw [e1, e2, e3]
    · simp [NO_ERROR] at h1

/-- C3: whenever `updateDisplayInfo` returns `NO_ERROR`, the display size and rotation it
stores are the ones resolved by this call: in mirror mode the resolution and orientation
answered by the display service, in headless mode the supplied width and height with the
supplied rotation (90, 180 and 270 as such, 0 as rotation 0).  The normalized size it
stores is (height, width) of that size when that rotation is 90 or 270 and
(width, height) when it is 0 or 180. -/
theorem updateDisplayInfo_normalized (s : AndroidDesktop) (q : DisplayQuery) (force : Bool)
    (r : Resize) (c : List Call) (s1 : AndroidDesktop)
    (h1 : updateDisplayInfo s q force r = some (NO_ERROR, c, s1)) :
    (s.mLayerId = 0 →
        s1.mDisplayMode = q.modeResolution ∧ s1.mDisplayState = q.stateOrientation ∧
        (q.stateOrientation = Rotation.ROTATION_90 ∨
            q.stateOrientation = Rotation.ROTATION_270 →
          s1.mDisplayModeRotated = ⟨q.modeResolution.height, q.modeResolution.width⟩) ∧
        (q.stateOrientation = Rotation.ROTATION_0 ∨
            q.stateOrientation = Rotation.ROTATION_180 →
          s1.mDisplayModeRotated = ⟨q.modeResolution.width, q.modeResolution.height⟩)) ∧
      (s.mLayerId ≠ 0 →
        s1.mDisplayMode = ⟨s._width, s._height⟩ ∧
        (s._rotation = 0 → s1.mDisplayState = Rotation.ROTATION_0) ∧
        (s._rotation = 90 → s1.mDisplayState = Rotation.ROTATION_90) ∧
        (s._rotation = 180 → s1.mDisplayState = Rotation.ROTATION_180) ∧
        (s._rotation = 270 → s1.mDisplayState = Rotation.ROTATION_270) ∧
        (s._rotation = 90 ∨ s._rotation = 270 →
          s1.mDisplayModeRotated = ⟨s._height, s._width⟩) ∧
        (s._rotation = 0 ∨ s._rotation = 180 →
          s1.mDisplayModeRotated = ⟨s._width, s._height⟩)) ∧
      (s1.mDisplayState = Rotation.ROTATION_90 ∨ s1.mDisplayState = Rotation.ROTATION_270 →
        s1.mDisplayModeRotated = ⟨s1.mDisplayMode.height, s1.mDisplayMode.width⟩) ∧
      (s1.mDisplayState = Rotation.ROTATION_0 ∨ s1.mDisplayState = Rotation.ROTATION_180 →
        s1.mDisplayModeRotated = ⟨s1.mDisplayMode.width, s1.mDisplayMode.height⟩) := by
  obtain ⟨hm, hh, hn⟩ := updateDisplayInfo_resolved s q force r c s1 h1
  refine ⟨?_, ?_, ?_, ?_⟩
  · intro hl
    obtain ⟨e1, e2⟩ := hm hl
    rw [e1, e2] at hn
    refine ⟨e1, e2, ?_, ?_⟩
    · intro h
      rw [hn]
      rcases h with h | h <;> simp [h, normalizedSize]
    · intro h
      rw [hn]
      rcases h with h | h <;> simp [h, normalizedSize]
  · intro hl
    obtain ⟨e1, e2⟩ := hh hl
    rw [e1, e2] at hn
    refine ⟨e1, ?_, ?_, ?_, ?_, ?_, ?_⟩
    · intro h; rw [e2]; simp [h]
    · intro h; rw [e2]; simp [h]
    · intro h; rw [e2]; simp [h]
    · intro h; rw [e2]; simp [h]
    · intro h
      rw [hn]
      rcases h with h | h <;> simp [h, normalizedSize]
    · intro h
      rw [hn]
      rcases h with h | h <;> simp [h, normalizedSize]
  · intro h
    rw [hn]
    rcases h with h | h <;> simp [h, normalizedSize]
  · intro h
    rw [hn]
    rcases h with h | h <;> simp [h, normalizedSize]

/-- Witness of C3: headless mode with width 1080, height 1920 and rotation 90 returns
`NO_ERROR`, stores the size 1080x1920 at rotation 90 and the normalized size
(1920, 1080). -/
theorem updateDisplayInfo_normalized_witness :
    updateDisplayInfo unresolvedDesktop queryOk false none
        = some (NO_ERROR, [], resolvedDesktop) ∧
      resolvedDesktop.mDisplayMode = ⟨1080, 1920⟩ ∧
      resolvedDesktop.mDisplayState = Rotation.ROTATION_90 ∧
      resolvedDesktop.mDisplayModeRotated = ⟨1920, 1080⟩ :=
  ⟨by decide,
    ((updateDisplayInfo_normalized unresolvedDesktop queryOk false none [] resolvedDesktop
      (by decide)).2.1 (by decide)).1,
    ((updateDisplayInfo_normalized unresolvedDesktop queryOk false none [] resolvedDesktop
      (by decide)).2.1 (by decide)).2.2.1 (by decide),
    ((updateDisplayInfo_normalized unresolvedDesktop queryOk false none [] resolvedDesktop
      (by decide)).2.1 (by decide)).2.2.2.2.2.1 (Or.inl (by decide))⟩

/-- In mirror mode with every query answered (1920x1080 at rotation 270) the answers are
stored with the normalized size (1080, 1920), and the pixel buffer is told. -/
theorem updateDisplayInfo_mirror_example :
    updateDisplayInfo mirrorDesktop queryRotated false none
      = some (NO_ERROR,
              [Call.pixels_setDisplayInfo ⟨1920, 1080⟩ Rotation.ROTATION_270 false],
              { mirrorDesktop with
                mDisplayMode := ⟨1920, 1080⟩
                mDisplayState := Rotation.ROTATION_270
                mDisplayModeRotated := ⟨1080, 1920⟩ }) := by
  decide

/-- Counterexample to C6 as stated: in headless mode with width 1080, height 1920 and
rotation 45, which is none of 0, 90, 180 and 270, `updateDisplayInfo` returns `NO_ERROR`
and resolves the geometry 1080x1920 at rotation 0. -/
theorem updateDisplayInfo_rotation45_resolves :
    skewedDesktop.mLayerId ≠ 0 ∧
      (skewedDesktop._rotation ≠ 0 ∧ skewedDesktop._rotation ≠ 90 ∧
        skewedDesktop._rotation ≠ 180 ∧ skewedDesktop._rotation ≠ 270) ∧
      updateDisplayInfo skewedDesktop queryOk false none
        = some (NO_ERROR, [],
            { skewedDesktop with
              mDisplayMode := ⟨1080, 1920⟩
              mDisplayState := Rotation.ROTATION_0
              mDisplayModeRotated := ⟨1080, 1920⟩ }) := by
  decide

/-- In headless mode with valid parameters `updateDisplayInfo` is defined unless the pixel
buffer reacts with a resize while the viewer-server is absent. -/
theorem updateDisplayInfo_headless_defined (s : AndroidDesktop) (q : DisplayQuery)
    (force : Bool) (r : Resize) (hl : s.mLayerId ≠ 0) (hw : 0 < s._width)
    (hh : 0 < s._height) (hr : 0 ≤ s._rotation)
    (hd : s.mPixels = none ∨ r = none ∨ s.mServer = true) :
    ∃ c s1, updateDisplayInfo s q force r = some (NO_ERROR, c, s1) := by
  unfold updateDisplayInfo
  rw [if_neg hl, if_pos ⟨hw, hh, by omega⟩]
  unfold storeRotated
  cases hp : s.mPixels with
  | none => simp [hp]
  | some pb =>
    simp only [hp]
    cases r with
    | none => simp [pixelsReact]
    | some p =>
      obtain ⟨pb2, rect⟩ := p
      have hs : s.mServer = true := by
        rcases hd with h | h | h
        · rw [hp] at h; exact absurd h (by simp)
        · exact absurd h (by simp)
        · exact h
      by_cases hi : s.mInputDevice = true <;>
        simp [pixelsReact, onBufferDimensionsChanged, reloadInput, hs, hi]

/-- C6, amended: in headless mode (layer id other than 0) `updateDisplayInfo` returns the
error `-1`, makes no call and leaves the whole state, the geometry included, as it was
when the supplied width is not positive, the supplied height is not positive or the
supplied rotation is negative.  In every other case it returns `NO_ERROR` (it is defined
unless the pixel buffer resizes while the viewer-server is absent) and stores the
supplied width and height; a rotation other than 90, 180 and 270 is then resolved as
rotation 0, with the normalized size (width, height). -/
theorem updateDisplayInfo_headless_invalid (s : AndroidDesktop) (q : DisplayQuery)
    (force : Bool) (r : Resize) (hl : s.mLayerId ≠ 0) :
    ((s._width ≤ 0 ∨ s._height ≤ 0 ∨ s._rotation < 0) →
        updateDisplayInfo s q force r = some (-1, [], s)) ∧
      (0 < s._width → 0 < s._height → 0 ≤ s._rotation →
        ((s.mPixels = none ∨ r = none ∨ s.mServer = true) →
          ∃ c s1, updateDisplayInfo s q force r = some (NO_ERROR, c, s1)) ∧
        ∀ status c s1, updateDisplayInfo s q force r = some (status, c, s1) →
          status = NO_ERROR ∧ s1.mDisplayMode = ⟨s._width, s._height⟩ ∧
          (s._rotation ≠ 90 → s._rotation ≠ 180 → s._rotation ≠ 270 →
            s1.mDisplayState = Rotation.ROTATION_0 ∧
            s1.mDisplayModeRotated = ⟨s._width, s._height⟩)) := by
  constructor
  · intro h
    unfold updateDisplayInfo
    rw [if_neg hl, if_neg]
    omega
  · intro hw hh hr
    refine ⟨updateDisplayInfo_headless_defined s q force r hl hw hh hr, ?_⟩
    intro status c s1 h1
    have hst : status = NO_ERROR := by
      unfold updateDisplayInfo at h1
      rw [if_neg hl, if_pos ⟨hw, hh, by omega⟩] at h1
      exact (storeRotated_spec _ _ _ _ _ _ h1).1
    subst hst
    obtain ⟨-, hh2, hn⟩ := updateDisplayInfo_resolved s q force r c s1 h1
    obtain ⟨e1, e2⟩ := hh2 hl
    refine ⟨rfl, e1, ?_⟩
    intro h90 h180 h270
    have e3 : s1.mDisplayState = Rotation.ROTATION_0 := by
      rw [e2]
      simp [h90, h180, h270]
    refine ⟨e3, ?_⟩
    rw [hn, e1, e3]
    rfl

/-- Witness of the amended C6: headless mode with the width unset (`-1`) fails and leaves
the state alone; headless mode with width 1080, height 1920 and rotation 45 returns
`NO_ERROR` and stores 1080x1920 at rotation 0 with the normalized size (1080, 1920). -/
theorem updateDisplayInfo_headless_invalid_witness :
    updateDisplayInfo unsetDesktop queryOk true none = some (-1, [], unsetDesktop) ∧
      (∃ c s1, updateDisplayInfo skewedDesktop queryOk true none = some (NO_ERROR, c, s1)) ∧
      updateDisplayInfo skewedDesktop queryOk true none = some (0, [], skewedResolved) ∧
      ((0 : Int) = NO_ERROR ∧ skewedResolved.mDisplayMode = ⟨1080, 1920⟩ ∧
        skewedResolved.mDisplayState = Rotation.ROTATION_0 ∧
        skewedResolved.mDisplayModeRotated = ⟨1080, 1920⟩) :=
  ⟨(updateDisplayInfo_headless_invalid unsetDesktop queryOk true none (by decide)).1
      (Or.inl (by decide)),
    ((updateDisplayInfo_headless_invalid skewedDesktop queryOk true none (by decide)).2
      (by decide) (by decide) (by decide)).1 (Or.inl (by decide)),
    by decide,
    (((updateDisplayInfo_headless_invalid skewedDesktop queryOk true none (by decide)).2
      (by decide) (by decide) (by decide)).2 0 [] skewedResolved (by decide)).1,
    (((updateDisplayInfo_headless_invalid skewedDesktop queryOk true none (by decide)).2
      (by decide) (by decide) (by decide)).2 0 [] skewedResolved (by decide)).2.1,
    ((((updateDisplayInfo_headless_invalid skewedDesktop queryOk true none (by decide)).2
      (by decide) (by decide) (by decide)).2 0 [] skewedResolved (by decide)).2.2
      (by decide) (by decide) (by decide)).1,
    ((((updateDisplayInfo_headless_invalid skewedDesktop queryOk true none (by decide)).2
      (by decide) (by decide) (by decide)).2 0 [] skewedResolved (by decide)).2.2
      (by decide) (by decide) (by decide)).2⟩

/-- C4, the failing input: in mirror mode, when the active display mode is read and the
display state query then fails, `updateDisplayInfo` returns the error with the display
size already overwritten (1920x1080) while the rotation and the normalized size
(1080x1920) are the old ones. -/
theorem updateDisplayInfo_state_failure_keeps_new_size :
    updateDisplayInfo mirrorDesktop stateQueryFails false none
        = some (-32, [], { mirrorDesktop with mDisplayMode := ⟨1920, 1080⟩ }) ∧
      mirrorDesktop.mDisplayMode = ⟨1080, 1920⟩ ∧
      mirrorDesktop.mDisplayModeRotated = ⟨1080, 1920⟩ := by
  decide

/-- Every failing path of `updateDisplayInfo` other than a failed display state query in
mirror mode leaves the state as it was. -/
theorem updateDisplayInfo_error_unchanged (s : AndroidDesktop) (q : DisplayQuery)
    (force : Bool) (r : Resize) (status : Int) (c : List Call) (s1 : AndroidDesktop)
    (h1 : updateDisplayInfo s q force r = some (status, c, s1)) (he : status ≠ NO_ERROR)
    (hq : s.mLayerId = 0 → q.ids ≠ [] → q.tokenPresent = true → q.modeStatus = NO_ERROR →
      q.stateStatus = NO_ERROR) :
    c = [] ∧ s1 = s := by
  unfold updateDisplayInfo at h1
  split at h1
  · rename_i hl
    split at h1
    · simp at h1; exact ⟨h1.2.1, h1.2.2.symm⟩
    · split at h1
      · simp at h1; exact ⟨h1.2.1, h1.2.2.symm⟩
      · split at h1
        · simp at h1; exact ⟨h1.2.1, h1.2.2.symm⟩
        · rename_i h2 h3 h4
          have h5 := hq hl h2 (by simpa using h3) (by simpa using h4)
          rw [if_neg (by simpa using h5)] at h1
          exact absurd (storeRotated_spec _ _ _ _ _ _ h1).1 he
  · split at h1
    · exact absurd (storeRotated_spec _ _ _ _ _ _ h1).1 he
    · simp at h1; exact ⟨h1.2.1, h1.2.2.symm⟩

/-- Counterexample to C5 as stated: the pixel buffer, whose size is the one published to
the viewer, is 1920x1080 and the 608x1080 display rect is centred in it; a
`setScreenLayout` request for the current 1920x1080 does not return `resultInvalid`: it
calls `setWindowSize` on the pixel buffer and `setScreenLayout` on the viewer-server and
returns `resultSuccess`. -/
theorem setScreenLayout_buffer_size_letterboxed :
    letterboxDesktop.mPixels = some ⟨1920, 1080⟩ ∧
      computeScreenLayout letterboxDesktop = some [⟨0, 0, 0, 1920, 1080, 0⟩] ∧
      setScreenLayout letterboxDesktop 1920 1080 [⟨0, 0, 0, 1920, 1080, 0⟩] none
        = some (ScreenResult.resultSuccess,
                [Call.pixels_setWindowSize 1920 1080,
                 Call.server_setScreenLayout [⟨0, 0, 0, 1920, 1080, 0⟩]],
                letterboxDesktop) ∧
      Call.toPixels (Call.pixels_setWindowSize 1920 1080) = true ∧
      Call.toServer (Call.server_setScreenLayout [⟨0, 0, 0, 1920, 1080, 0⟩]) = true := by
  decide

/-- A request whose width and height are those of the display rect is not actionable. -/
theorem setScreenLayout_rect_size (s : AndroidDesktop) (reqWidth reqHeight : Int)
    (layout : ScreenSet) (r : Resize) (hw : reqWidth = s.mDisplayRect.getWidth)
    (hh : reqHeight = s.mDisplayRect.getHeight) :
    ∃ c, setScreenLayout s reqWidth reqHeight layout r
          = some (ScreenResult.resultInvalid, c, s) ∧
      ∀ x ∈ c, x.toPixels = false ∧ x.toServer = false := by
  unfold setScreenLayout
  by_cases hl : s.mLayerId < 0
  · refine ⟨[Call.jni_ResizeDisplay reqWidth reqHeight], by rw [if_pos hl], ?_⟩
    intro x hx
    simp at hx
    subst hx
    exact ⟨rfl, rfl⟩
  · refine ⟨[], by rw [if_neg hl, if_pos ⟨hw, hh⟩], ?_⟩
    intro x hx
    simp at hx

/-- C5, amended: for every controller state, `setScreenLayout` called with the width and
height of the current display rect returns `resultInvalid`, makes no call to the pixel
buffer and none to the viewer-server, and leaves the state as it was.  In particular
this holds for a request with the current width and height of the pixel buffer whenever
the display rect is as wide and as high as the pixel buffer. -/
theorem setScreenLayout_current_size (s : AndroidDesktop) (reqWidth reqHeight : Int)
    (layout : ScreenSet) (r : Resize) :
    (reqWidth = s.mDisplayRect.getWidth → reqHeight = s.mDisplayRect.getHeight →
        ∃ c, setScreenLayout s reqWidth reqHeight layout r
              = some (ScreenResult.resultInvalid, c, s) ∧
          ∀ x ∈ c, x.toPixels = false ∧ x.toServer = false) ∧
      (∀ pb, s.mPixels = some pb → s.mDisplayRect.getWidth = pb.width →
        s.mDisplayRect.getHeight = pb.height → reqWidth = pb.width → reqHeight = pb.height →
        ∃ c, setScreenLayout s reqWidth reqHeight layout r
              = some (ScreenResult.resultInvalid, c, s) ∧
          ∀ x ∈ c, x.toPixels = false ∧ x.toServer = false) := by
  constructor
  · intro hw hh
    exact setScreenLayout_rect_size s reqWidth reqHeight layout r hw hh
  · intro pb _ hw hh hrw hrh
    exact setScreenLayout_rect_size s reqWidth reqHeight layout r (by rw [hrw, hw])
      (by rw [hrh, hh])

/-- Witness of the amended C5: a 608x1080 request while the display rect is 608x1080 in a
1920x1080 pixel buffer, and a 1920x1080 request while the display rect covers the
1920x1080 pixel buffer. -/
theorem setScreenLayout_current_size_witness :
    (∃ c, setScreenLayout letterboxDesktop 608 1080 [⟨0, 0, 0, 608, 1080, 0⟩]
            (some (⟨608, 1080⟩, ⟨0, 0, 608, 1080⟩))
          = some (ScreenResult.resultInvalid, c, letterboxDesktop) ∧
        ∀ x ∈ c, x.toPixels = false ∧ x.toServer = false) ∧
      (∃ c, setScreenLayout landscapeDesktop 1920 1080 [⟨0, 0, 0, 1920, 1080, 0⟩] none
          = some (ScreenResult.resultInvalid, c, landscapeDesktop) ∧
        ∀ x ∈ c, x.toPixels = false ∧ x.toServer = false) :=
  ⟨(setScreenLayout_current_size letterboxDesktop 608 1080 [⟨0, 0, 0, 608, 1080, 0⟩]
      (some (⟨608, 1080⟩, ⟨0, 0, 608, 1080⟩))).1 (by decide) (by decide),
    (setScreenLayout_current_size landscapeDesktop 1920 1080 [⟨0, 0, 0, 1920, 1080, 0⟩]
      none).2 ⟨1920, 1080⟩ (by decide) (by decide) (by decide) (by decide) (by decide)⟩

/-- The refusal of the example request is the empty call list. -/
theorem setScreenLayout_letterbox_rect_size :
    setScreenLayout letterboxDesktop 608 1080 [⟨0, 0, 0, 608, 1080, 0⟩]
        (some (⟨608, 1080⟩, ⟨0, 0, 608, 1080⟩))
      = some (ScreenResult.resultInvalid, [], letterboxDesktop) := by
  decide

/-! ### Lifecycle -/

/-- The callback `onBufferDimensionsChanged` keeps the server, the input device and the
pixel buffer. -/
theorem onBufferDimensionsChanged_resources (s : AndroidDesktop) (w h : Int) (rect : Rect)
    (c : List Call) (s1 : AndroidDesktop)
    (h1 : onBufferDimensionsChanged s w h rect = some (c, s1)) :
    s1.mServer = s.mServer ∧ s1.mInputDevice = s.mInputDevice ∧ s1.mPixels = s.mPixels := by
  unfold onBufferDimensionsChanged reloadInput at h1
  cases hp : s.mPixels with
  | none => simp [hp] at h1
  | some pb =>
    simp only [hp] at h1
    by_cases hi : s.mInputDevice = true <;> by_cases hs : s.mServer = true <;>
      simp [hi, hs] at h1 <;> obtain ⟨-, rfl⟩ := h1 <;> simp [hp, hi, hs]

/-- The reaction of the pixel buffer keeps the server and the input device, and a pixel
buffer that is present stays present. -/
theorem pixelsReact_resources (s : AndroidDesktop) (r : Resize) (c : List Call)
    (s1 : AndroidDesktop) (h1 : pixelsReact s r = some (c, s1)) :
    s1.mServer = s.mServer ∧ s1.mInputDevice = s.mInputDevice ∧
      (s.mPixels ≠ none → s1.mPixels ≠ none) := by
  unfold pixelsReact at h1
  cases r with
  | none =>
    simp at h1
    obtain ⟨-, rfl⟩ := h1
    simp
  | some p =>
    obtain ⟨pb, rect⟩ := p
    simp only at h1
    obtain ⟨e1, e2, e3⟩ :=
      onBufferDimensionsChanged_resources { s with mPixels := some pb } _ _ _ _ _ h1
    refine ⟨e1, e2, fun _ => ?_⟩
    rw [e3]
    simp

/-- The method `updateDisplayInfo` keeps the server and the input device, and a pixel
buffer that is present stays present. -/
theorem updateDisplayInfo_resources (s : AndroidDesktop) (q : DisplayQuery) (force : Bool)
    (r : Resize) (status : Int) (c : List Call) (s1 : AndroidDesktop)
    (h1 : updateDisplayInfo s q force r = some (status, c, s1)) :
    s1.mServer = s.mServer ∧ s1.mInputDevice = s.mInputDevice ∧
      (s.mPixels ≠ none → s1.mPixels ≠ none) := by
  have tail : ∀ (t : AndroidDesktop), storeRotated t force r = some (status, c, s1) →
      s1.mServer = t.mServer ∧ s1.mInputDevice = t.mInputDevice ∧
        (t.mPixels ≠ none → s1.mPixels ≠ none) := by
    intro t ht
    unfold storeRotated at ht
    cases hp : t.mPixels with
    | none =>
      simp [hp] at ht
      obtain ⟨-, -, rfl⟩ := ht
      simp
    | some pb =>
      simp only [hp] at ht
      split at ht
      · simp at ht
      · rename_i c2 s2 h2
        simp at ht
        obtain ⟨-, -, rfl⟩ := ht
        obtain ⟨e1, e2, e3⟩ := pixelsReact_resources _ _ _ _ h2
        exact ⟨e1, e2, fun _ => e3 (by simp [hp])⟩
  unfold updateDisplayInfo at h1
  split at h1
  · split at h1
    · simp at h1; rw [← h1.2.2]; simp
    · split at h1
      · simp at h1; rw [← h1.2.2]; simp
      · split at h1
        · simp at h1; rw [← h1.2.2]; simp
        · split at h1
          · simp at h1; rw [← h1.2.2]; simp
          · have h3 := tail _ h1
            simpa using h3
  · split at h1
    · have h3 := tail _ h1
      simpa using h3
    · simp at h1; rw [← h1.2.2]; simp

/-- After `start` the controller is started, whether or not the geometry was resolved. -/
theorem start_started (s : AndroidDesktop) (pb : PixelBuffer) (q : DisplayQuery) (r : Resize)
    (c : List Call) (s1 : AndroidDesktop) (h1 : start s pb q r = some (c, s1)) :
    s1.started := by
  unfold start at h1
  simp only at h1
  split at h1
  · simp at h1
  · rename_i status c2 s2 h2
    obtain ⟨e1, e2, e3⟩ := updateDisplayInfo_resources _ _ _ _ _ _ _ h2
    have hs2 : s2.started := ⟨by rw [e1], by rw [e2], e3 (by simp)⟩
    split at h1
    · simp at h1
      rw [← h1.2]
      exact hs2
    · split at h1
      · simp at h1
        rw [← h1.2]
        exact hs2
      · simp at h1

/-! ### Dirty flags -/

/-- A successful `updateDisplayInfo` leaves the frame flag as it was. -/
theorem updateDisplayInfo_frameChanged (s : AndroidDesktop) (q : DisplayQuery) (force : Bool)
    (r : Resize) (status : Int) (c : List Call) (s1 : AndroidDesktop)
    (h1 : updateDisplayInfo s q force r = some (status, c, s1)) :
    s1.frameChanged = s.frameChanged := by
  unfold updateDisplayInfo at h1
  split at h1
  · split at h1
    · simp at h1; rw [← h1.2.2]
    · split at h1
      · simp at h1; rw [← h1.2.2]
      · split at h1
        · simp at h1; rw [← h1.2.2]
        · split at h1
          · simp at h1; rw [← h1.2.2]
          · exact (storeRotated_spec _ _ _ _ _ _ h1).2.2.2.2
  · split at h1
    · exact (storeRotated_spec _ _ _ _ _ _ h1).2.2.2.2
    · simp at h1; rw [← h1.2.2]

/-- After a call of `processFrames` the frame flag is clear, or the capture session or the
pixel buffer is absent. -/
theorem processFrames_post (s : AndroidDesktop) (q : DisplayQuery) (r : Resize)
    (lock : Option LockedBuffer) (c : List Call) (s1 : AndroidDesktop)
    (h1 : processFrames s q r lock = some (c, s1)) :
    s1.frameChanged = false ∨ s1.mVirtualDisplay = none ∨ s1.mPixels = none := by
  unfold processFrames at h1
  split at h1
  · rename_i hf
    simp at h1
    rw [← h1.2]
    exact Or.inl hf
  · split at h1
    · rename_i hv
      simp at h1
      rw [← h1.2]
      exact Or.inr (Or.inl hv)
    · split at h1
      · rename_i hp
        simp at h1
        rw [← h1.2]
        exact Or.inr (Or.inr hp)
      · split at h1
        · simp at h1
        · rename_i st c2 s2 h2
          have hf := updateDisplayInfo_frameChanged _ _ _ _ _ _ _ h2
          simp only at hf
          split at h1
          · simp at h1
          · simp at h1
            rw [← h1.2]
            exact Or.inl hf
          · split at h1
            · simp at h1
            · split at h1
              · simp at h1
              · simp at h1
                rw [← h1.2]
                exact Or.inl hf

/-- A call of `processFrames` with the frame flag clear, or with the capture session or
the pixel buffer absent, makes no call and changes nothing. -/
theorem processFrames_idle (s : AndroidDesktop) (q : DisplayQuery) (r : Resize)
    (lock : Option LockedBuffer)
    (h : s.frameChanged = false ∨ s.mVirtualDisplay = none ∨ s.mPixels = none) :
    processFrames s q r lock = some ([], s) := by
  unfold processFrames
  by_cases hf : s.frameChanged = false
  · rw [if_pos hf]
  · rw [if_neg hf]
    by_cases hv : s.mVirtualDisplay = none
    · rw [if_pos hv]
    · rw [if_neg hv]
      rcases h with h | h | h
      · exact absurd h hf
      · exact absurd h hv
      · rw [if_pos h]

/-- C7: for each of `processFrames`, `processCursor`, `processClipboard` and
`processInputChanged`, a second call that follows a first one with no flag-setting event
in between makes no call to any collaborator and leaves the controller state unchanged. -/
theorem process_twice_second_is_noop (s : AndroidDesktop) :
    (∀ q r lock c s1, processFrames s q r lock = some (c, s1) →
        ∀ q2 r2 lock2, processFrames s1 q2 r2 lock2 = some ([], s1)) ∧
      (∀ c s1, processCursor s = some (c, s1) → processCursor s1 = some ([], s1)) ∧
      (∀ c s1, processClipboard s = some (c, s1) → processClipboard s1 = some ([], s1)) ∧
      (∀ c s1, processInputChanged s = some (c, s1) →
        processInputChanged s1 = some ([], s1)) := by
  refine ⟨?_, ?_, ?_, ?_⟩
  · intro q r lock c s1 h1 q2 r2 lock2
    exact processFrames_idle s1 q2 r2 lock2 (processFrames_post s q r lock c s1 h1)
  · intro c s1 h1
    unfold processCursor at h1
    by_cases hf : s.cursorChanged = false
    · rw [if_pos hf] at h1
      simp at h1
      rw [← h1.2]
      unfold processCursor
      rw [if_pos hf]
    · rw [if_neg hf] at h1
      by_cases hs : s.mServer = true
      · simp [hs] at h1
        rw [← h1.2]
        simp [processCursor]
      · simp [hs] at h1
  · intro c s1 h1
    unfold processClipboard at h1
    by_cases hf : s.clipboardChanged = false
    · rw [if_pos hf] at h1
      simp at h1
      rw [← h1.2]
      unfold processClipboard
      rw [if_pos hf]
    · rw [if_neg hf] at h1
      by_cases hs : s.mServer = true
      · simp [hs] at h1
        rw [← h1.2]
        simp [processClipboard]
      · simp [hs] at h1
        rw [← h1.2]
        simp [processClipboard]
  · intro c s1 h1
    unfold processInputChanged at h1
    by_cases hf : s.mInputChanged = true
    · rw [if_pos hf] at h1
      unfold reloadInput at h1
      by_cases hi : s.mInputDevice = true
      · simp [hi] at h1
        rw [← h1.2]
        simp [processInputChanged]
      · simp [hi] at h1
        rw [← h1.2]
        simp [processInputChanged, reloadInput, hi]
    · rw [if_neg hf] at h1
      simp at h1
      rw [← h1.2]
      simp [processInputChanged, hf]

/-- Witness of C7: the four operations on a running controller with every flag set.  The
first call of each does its work, the second does nothing. -/
theorem process_twice_second_is_noop_witness :
    (processFrames dirtyDesktop queryOk none (some frame7)
          = some ([Call.pixels_setDisplayInfo ⟨1080, 1920⟩ Rotation.ROTATION_90 false,
                   Call.display_lockNextBuffer,
                   Call.pixels_imageRect ⟨0, 0, 1920, 1080⟩ 1920,
                   Call.display_unlockBuffer,
                   Call.server_add_changed ⟨0, 0, 1920, 1080⟩],
                  { dirtyDesktop with frameChanged := false, mFrameNumber := 7 }) ∧
        processFrames { dirtyDesktop with frameChanged := false, mFrameNumber := 7 }
            queryOk none (some frame7)
          = some ([], { dirtyDesktop with frameChanged := false, mFrameNumber := 7 })) ∧
      (processCursor dirtyDesktop
          = some ([Call.server_setCursor 24 24 ⟨3, 4⟩ 4096],
                  { dirtyDesktop with cursorChanged := false }) ∧
        processCursor { dirtyDesktop with cursorChanged := false }
          = some ([], { dirtyDesktop with cursorChanged := false })) ∧
      (processClipboard dirtyDesktop
          = some ([Call.server_announceClipboard true],
                  { dirtyDesktop with clipboardChanged := false }) ∧
        processClipboard { dirtyDesktop with clipboardChanged := false }
          = some ([], { dirtyDesktop with clipboardChanged := false })) ∧
      (processInputChanged dirtyDesktop
          = some ([Call.input_reconfigure 1920 1080 true false],
                  { dirtyDesktop with mInputChanged := false }) ∧
        processInputChanged { dirtyDesktop with mInputChanged := false }
          = some ([], { dirtyDesktop with mInputChanged := false })) :=
  ⟨⟨by decide,
      (process_twice_second_is_noop dirtyDesktop).1 queryOk none (some frame7)
        [Call.pixels_setDisplayInfo ⟨1080, 1920⟩ Rotation.ROTATION_90 false,
         Call.display_lockNextBuffer,
         Call.pixels_imageRect ⟨0, 0, 1920, 1080⟩ 1920,
         Call.display_unlockBuffer,
         Call.server_add_changed ⟨0, 0, 1920, 1080⟩]
        { dirtyDesktop with frameChanged := false, mFrameNumber := 7 }
        (by decide) queryOk none (some frame7)⟩,
    ⟨by decide,
      (process_twice_second_is_noop dirtyDesktop).2.1
        [Call.server_setCursor 24 24 ⟨3, 4⟩ 4096]
        { dirtyDesktop with cursorChanged := false } (by decide)⟩,
    ⟨by decide,
      (process_twice_second_is_noop dirtyDesktop).2.2.1
        [Call.server_announceClipboard true]
        { dirtyDesktop with clipboardChanged := false } (by decide)⟩,
    ⟨by decide,
      (process_twice_second_is_noop dirtyDesktop).2.2.2
        [Call.input_reconfigure 1920 1080 true false]
        { dirtyDesktop with mInputChanged := false } (by decide)⟩⟩

/-- A sequence of `setCursor` calls is always defined, keeps the server pointer, and
after a non-empty one the cursor flag is set and the stored payload is the last one. -/
theorem setCursors_spec (cs : List CursorArgs) (s : AndroidDesktop) :
    ∃ c s1, setCursors s cs = some (c, s1) ∧ s1.mServer = s.mServer ∧
      ∀ hne : cs ≠ [], s1.cursorChanged = true ∧
        s1.cur_width = (cs.getLast hne).width ∧ s1.cur_height = (cs.getLast hne).height ∧
        s1.cur_hotX = (cs.getLast hne).hotX ∧ s1.cur_hotY = (cs.getLast hne).hotY ∧
        s1.cur_buffer = (cs.getLast hne).buffer := by
  induction cs generalizing s with
  | nil => exact ⟨[], s, rfl, rfl, fun hne => absurd rfl hne⟩
  | cons a rest ih =>
    obtain ⟨c2, s2, h2, hs2, hlast⟩ :=
      ih { s with
        cur_width := a.width, cur_height := a.height, cur_buffer := a.buffer,
        cur_hotX := a.hotX, cur_hotY := a.hotY, cursorChanged := true }
    refine ⟨[Call.eventfd_write] ++ c2, s2, ?_, ?_, ?_⟩
    · simp only [setCursors, setCursor, notify, h2]
    · simpa using hs2
    · intro hne
      cases rest with
      | nil =>
        simp only [setCursors] at h2
        simp at h2
        rw [← h2.2]
        simp
      | cons b rest2 =>
        have h3 := hlast (by simp)
        simpa [List.getLast_cons] using h3

/-- C8: on a controller whose viewer-server is attached, a non-empty sequence of
`setCursor` calls followed by one `processCursor` call makes `processCursor` issue exactly
one call, the viewer-server `setCursor`, with the width, height, hotspot and buffer of the
last `setCursor` call of the sequence. -/
theorem processCursor_delivers_last (s : AndroidDesktop) (cs : List CursorArgs)
    (hs : s.mServer = true) (hne : cs ≠ []) :
    ∃ c s1 s2, setCursors s cs = some (c, s1) ∧
      processCursor s1
        = some ([Call.server_setCursor (cs.getLast hne).width (cs.getLast hne).height
                  ⟨(cs.getLast hne).hotX, (cs.getLast hne).hotY⟩ (cs.getLast hne).buffer],
                s2) := by
  obtain ⟨c, s1, h1, hs1, hlast⟩ := setCursors_spec cs s
  obtain ⟨hf, e1, e2, e3, e4, e5⟩ := hlast hne
  refine ⟨c, s1, { s1 with cursorChanged := false }, h1, ?_⟩
  unfold processCursor
  simp [hf, hs1, hs, e1, e2, e3, e4, e5]

/-- Witness of C8: three cursor updates, of which the last one is delivered. -/
theorem processCursor_delivers_last_witness :
    ∃ c s1 s2, setCursors landscapeDesktop threeCursors = some (c, s1) ∧
      processCursor s1
        = some ([Call.server_setCursor
                  (threeCursors.getLast (List.cons_ne_nil _ _)).width
                  (threeCursors.getLast (List.cons_ne_nil _ _)).height
                  ⟨(threeCursors.getLast (List.cons_ne_nil _ _)).hotX,
                   (threeCursors.getLast (List.cons_ne_nil _ _)).hotY⟩
                  (threeCursors.getLast (List.cons_ne_nil _ _)).buffer],
                s2) :=
  processCursor_delivers_last landscapeDesktop threeCursors (by decide) (List.cons_ne_nil _ _)

/-- The cursor call of the example sequence carries the third payload. -/
theorem threeCursors_delivery :
    ∃ c s1, setCursors landscapeDesktop threeCursors = some (c, s1) ∧
      processCursor s1
        = some ([Call.server_setCursor 32 32 ⟨5, 6⟩ 12288],
                { s1 with cursorChanged := false }) := by
  refine ⟨_, _, rfl, ?_⟩
  decide

/-- C9: on a started controller `stop` succeeds, and a `processFrames` call after it makes
no call at all, so none to the capture session, the pixel buffer or the viewer-server, and
changes nothing, whether the frame flag is set or not. -/
theorem processFrames_after_stop (s : AndroidDesktop) (hs : s.started) :
    ∃ c s1, stop s = some (c, s1) ∧
      ∀ (flag : Bool) (q : DisplayQuery) (r : Resize) (lock : Option LockedBuffer),
        processFrames { s1 with frameChanged := flag } q r lock
          = some ([], { s1 with frameChanged := flag }) := by
  obtain ⟨h1, h2, h3⟩ := hs
  cases hp : s.mPixels with
  | none => exact absurd hp h3
  | some pb =>
    refine ⟨[Call.server_setPixelBuffer none none, Call.pixels_reset, Call.input_stop,
      Call.jni_NewSurfaceAvailable], { s with mVirtualDisplay := none, mPixels := none }, ?_, ?_⟩
    · simp [stop, h1, h2, hp]
    · intro flag q r lock
      exact processFrames_idle _ q r lock (Or.inr (Or.inl rfl))

/-- Witness of C9: the running controller with every flag set is stopped and then asked
to process a frame. -/
theorem processFrames_after_stop_witness :
    ∃ c s1, stop dirtyDesktop = some (c, s1) ∧
      ∀ (flag : Bool) (q : DisplayQuery) (r : Resize) (lock : Option LockedBuffer),
        processFrames { s1 with frameChanged := flag } q r lock
          = some ([], { s1 with frameChanged := flag }) :=
  processFrames_after_stop dirtyDesktop ⟨by decide, by decide, by decide⟩

/-! ### Coordinate translation -/

set_option maxRecDepth 100000

/-- The `uint32_t` difference of two converted integers is the converted difference. -/
theorem toUInt32_sub (p m : Int) :
    (toUInt32 p + 4294967296 - toUInt32 m) % 4294967296 = toUInt32 (p - m) := by
  unfold toUInt32
  omega

/-- A natural number below `2 ^ 32` converts to itself. -/
theorem toUInt32_natCast (n : Nat) (h : n < 4294967296) : toUInt32 (n : Int) = n := by
  unfold toUInt32
  omega

/-- The quotient statement for a positive divisor and a quotient in range. -/
theorem f32QuotToUInt32_pos (a r q : Nat) (hr : 0 < r)
    (hq : f32DivTrunc (f32OfNat a) (f32OfNat r) = q) (hlt : q < 4294967296) :
    f32QuotToUInt32 a (r : Int) = some q := by
  unfold f32QuotToUInt32
  have h1 : (r : Int) ≠ 0 := by omega
  have h2 : (0 : Int) < r := by omega
  simp only [h1, if_false, Int.natAbs_ofNat, hq, h2, if_true, hlt]

/-- The position half a rect dimension past the centring offset translates to the integer
half of the device dimension, when the quantities involved are binary32 values. -/
theorem translate_centre (l : Int) (w nw : Nat) (hw : 0 < w) (hprod : w * nw < 4294967296)
    (e1 : f32Exact (w * nw)) (e2 : f32Exact (2 * w)) (e3 : f32Exact nw) :
    translate (l + w) (toUInt32 l) (nw : Int) ((2 * w : Nat) : Int) = some (nw / 2) := by
  unfold translate
  simp only
  have hd : l + (w : Int) - l = (w : Int) := by ring
  rw [toUInt32_sub, hd]
  rcases Nat.eq_zero_or_pos nw with h | h
  · subst h
    have hz : toUInt32 ((0 : Nat) : Int) = 0 := by decide
    rw [hz, Nat.mul_zero, Nat.zero_mod]
    apply f32QuotToUInt32_pos _ _ _ (by omega) _ (by norm_num)
    rw [f32OfNat_small 0 (by norm_num), f32DivTrunc_zero]
  · have hw32 : w < 4294967296 := by nlinarith
    have hn32 : nw < 4294967296 := by nlinarith
    rw [toUInt32_natCast w hw32, toUInt32_natCast nw hn32, Nat.mod_eq_of_lt hprod]
    apply f32QuotToUInt32_pos _ _ _ (by omega) _ (by omega)
    unfold f32Exact at e1 e2 e3
    rw [e1, e2]
    exact f32DivTrunc_half (w * nw) (2 * w) nw (by omega) (by ring) e3

/-- A position between the centring offset and the offset plus the rect dimension
translates to a defined coordinate that does not exceed the device dimension, for device
dimensions up to `2 ^ 22`. -/
theorem translate_bound (l p : Int) (rw nw : Nat) (hrw : 0 < rw) (hrw31 : rw < 2147483648)
    (hnw : nw ≤ 4194304) (h1 : l ≤ p) (h2 : p ≤ l + rw) :
    ∃ x, translate p (toUInt32 l) (nw : Int) (rw : Int) = some x ∧ x ≤ nw := by
  unfold translate
  simp only
  rw [toUInt32_sub, toUInt32_natCast nw (by omega)]
  obtain ⟨d, hd⟩ : ∃ d : Nat, p - l = (d : Int) := ⟨(p - l).toNat, by omega⟩
  have hdle : d ≤ rw := by omega
  rw [hd, toUInt32_natCast d (by omega)]
  have ha : d * nw % 4294967296 ≤ rw * nw :=
    le_trans (Nat.mod_le _ _) (Nat.mul_le_mul_right _ hdle)
  have ha32 : d * nw % 4294967296 < 4294967296 := Nat.mod_lt _ (by norm_num)
  generalize d * nw % 4294967296 = a at ha ha32
  have hfa := f32OfNat_upper a
  have hfb := f32OfNat_lower rw
  have hfb2 := f32OfNat_upper rw
  have key : f32DivTrunc (f32OfNat a) (f32OfNat rw) ≤ nw := by
    rcases Nat.eq_zero_or_pos (f32OfNat a) with h0 | hpos
    · rw [h0, f32DivTrunc_zero]
      exact Nat.zero_le _
    · have hbpos : 0 < f32OfNat rw := by omega
      have hb40 : f32OfNat rw ≤ 2 ^ 40 := by norm_num; omega
      have h3 := f32Div_upper (f32OfNat a) (f32OfNat rw) hpos hbpos hb40
      unfold f32DivTrunc
      simp only
      exact quotient_bound _ (f32OfNat a) (f32OfNat rw) rw nw h3
        (le_trans hfa (Nat.mul_le_mul_left _ ha)) hfb hrw hnw
  exact ⟨_, f32QuotToUInt32_pos a rw _ hrw rfl (by omega), key⟩

/-- Counterexample to C2 as stated: the 960x540 display rect (0, 0, 960, 540) lies in the
top left corner of the 1920x1080 pixel buffer, the normalized size is 1920x1080, and the
pointer at the centre (480, 270) of the rect is forwarded as (0, 0), not as the centre
(960, 540) of the normalized size. -/
theorem pointerEvent_corner_rect_centre :
    cornerDesktop.mDisplayRect = ⟨0, 0, 960, 540⟩ ∧
      cornerDesktop.mDisplayModeRotated = ⟨1920, 1080⟩ ∧
      pointerEvent cornerDesktop ⟨(0 + 960) / 2, (0 + 540) / 2⟩ 1
        = some ([Call.server_setCursorPos 0 0 false, Call.input_pointerEvent 1 0 0],
                cornerDesktop) ∧
      pointerEvent cornerDesktop ⟨(0 + 960) / 2, (0 + 540) / 2⟩ 1
        ≠ some ([Call.server_setCursorPos (1920 / 2) (1080 / 2) false,
                 Call.input_pointerEvent 1 (1920 / 2) (1080 / 2)], cornerDesktop) := by
  decide

/-- C2, amended: whatever the rotation, when the display rect is centred in the pixel
buffer, has even positive width `2 * w` and height `2 * h`, and the numbers that enter the
division (`w * nw`, `2 * w`, `nw` and the same for the height) are binary32 values with
the products below `2 ^ 32`, a pointer event at the centre `(left + w, top + h)` of the
display rect forwards the centre `(nw / 2, nh / 2)` of the normalized size `nw` x `nh` to
`setCursorPos` and to the input backend. -/
theorem pointerEvent_centre (s : AndroidDesktop) (pb : PixelBuffer) (buttonMask : Int)
    (w h nw nh : Nat) (hp : s.mPixels = some pb) (hsrv : s.mServer = true)
    (hin : s.mInputDevice = true) (hc : s.mDisplayRect.centredIn pb)
    (hw : s.mDisplayRect.getWidth = ((2 * w : Nat) : Int))
    (hh : s.mDisplayRect.getHeight = ((2 * h : Nat) : Int))
    (hwpos : 0 < w) (hhpos : 0 < h)
    (hnw : s.mDisplayModeRotated.width = (nw : Int))
    (hnh : s.mDisplayModeRotated.height = (nh : Int))
    (hxw : w * nw < 4294967296) (hxh : h * nh < 4294967296)
    (ew : f32Exact (w * nw) ∧ f32Exact (2 * w) ∧ f32Exact nw)
    (eh : f32Exact (h * nh) ∧ f32Exact (2 * h) ∧ f32Exact nh) :
    pointerEvent s ⟨s.mDisplayRect.left + w, s.mDisplayRect.top + h⟩ buttonMask
      = some ([Call.server_setCursorPos (nw / 2) (nh / 2) false,
               Call.input_pointerEvent buttonMask (nw / 2) (nh / 2)], s) := by
  have hx := translate_centre s.mDisplayRect.left w nw hwpos hxw ew.1 ew.2.1 ew.2.2
  have hy := translate_centre s.mDisplayRect.top h nh hhpos hxh eh.1 eh.2.1 eh.2.2
  have hr : s.mDisplayRect.right = s.mDisplayRect.left + ((2 * w : Nat) : Int) := by
    unfold Rect.getWidth at hw
    omega
  have hb : s.mDisplayRect.bottom = s.mDisplayRect.top + ((2 * h : Nat) : Int) := by
    unfold Rect.getHeight at hh
    omega
  have hcheck : ¬ (s.mDisplayRect.left + (w : Int) < s.mDisplayRect.left ∨
      s.mDisplayRect.left + (w : Int) > s.mDisplayRect.right ∨
      s.mDisplayRect.top + (h : Int) < s.mDisplayRect.top ∨
      s.mDisplayRect.top + (h : Int) > s.mDisplayRect.bottom) := by
    rw [hr, hb]
    push_cast
    omega
  unfold pointerEvent
  simp only
  rw [if_neg hcheck]
  simp only [hp]
  rw [← hc.1, ← hc.2, hnw, hnh, hw, hh, hx, hy]
  simp [hsrv, hin]

/-- Witness of the amended C2, the scenario of the spec: geometry 1080x1920 at rotation
90, a 1920x1080 display rect in a 1920x1080 pixel buffer, pointer (960, 540) forwarded as
(960, 540). -/
theorem pointerEvent_centre_witness :
    pointerEvent landscapeDesktop ⟨960, 540⟩ 1
      = some ([Call.server_setCursorPos 960 540 false, Call.input_pointerEvent 1 960 540],
              landscapeDesktop) :=
  pointerEvent_centre landscapeDesktop ⟨1920, 1080⟩ 1 960 540 1920 1080 (by decide)
    (by decide) (by decide) ⟨by decide, by decide⟩ (by decide) (by decide) (by decide)
    (by decide) (by decide) (by decide) (by decide) (by decide)
    ⟨by unfold f32Exact; decide, by unfold f32Exact; decide, by unfold f32Exact; decide⟩
    ⟨by unfold f32Exact; decide, by unfold f32Exact; decide, by unfold f32Exact; decide⟩

/-- The binary32 condition of the centre law cannot be dropped: with a 2x2 display rect
covering a 2x2 pixel buffer and a normalized width of 33554434, the centre (1, 1) is
forwarded with x = 16777216, while half the normalized width is 16777217. -/
theorem pointerEvent_centre_rounded :
    pointerEvent wideDesktop ⟨1, 1⟩ 1
        = some ([Call.server_setCursorPos 16777216 1 false,
                 Call.input_pointerEvent 1 16777216 1], wideDesktop) ∧
      33554434 / 2 = 16777217 := by
  decide

/-- Counterexample to C10 as stated: the 512x512 display rect (0, 0, 512, 512) lies inside
the 1024x1024 pixel buffer, the normalized size is 512x512, the pointer (0, 0) passes
the bounds check, and it is forwarded as (8388352, 8388352), outside the device. -/
theorem pointerEvent_corner_rect_outside :
    squareCornerDesktop.mPixels = some ⟨1024, 1024⟩ ∧
      squareCornerDesktop.mDisplayRect = ⟨0, 0, 512, 512⟩ ∧
      squareCornerDesktop.mDisplayModeRotated = ⟨512, 512⟩ ∧
      ¬ ((0 : Int) < squareCornerDesktop.mDisplayRect.left ∨
          (0 : Int) > squareCornerDesktop.mDisplayRect.right ∨
          (0 : Int) < squareCornerDesktop.mDisplayRect.top ∨
          (0 : Int) > squareCornerDesktop.mDisplayRect.bottom) ∧
      pointerEvent squareCornerDesktop ⟨0, 0⟩ 1
        = some ([Call.server_setCursorPos 8388352 8388352 false,
                 Call.input_pointerEvent 1 8388352 8388352], squareCornerDesktop) ∧
      ¬ (8388352 ≤ 512) := by
  decide

/-- C10, amended: when the display rect has positive width and height (below `2 ^ 31`, as
every `int32_t` is), is centred in the pixel buffer, and the normalized width and height
are between 0 and `2 ^ 22`, every pointer position that passes the bounds check is
forwarded, and the forwarded coordinate, computed with the `uint32_t` and binary32
arithmetic of the code, satisfies `0 ≤ x ≤ normalizedWidth` and
`0 ≤ y ≤ normalizedHeight`. -/
theorem pointerEvent_within_device (s : AndroidDesktop) (pb : PixelBuffer) (pos : Point)
    (buttonMask : Int) (rw rh nw nh : Nat) (hp : s.mPixels = some pb)
    (hsrv : s.mServer = true) (hin : s.mInputDevice = true)
    (hc : s.mDisplayRect.centredIn pb)
    (hw : s.mDisplayRect.getWidth = (rw : Int)) (hh : s.mDisplayRect.getHeight = (rh : Int))
    (hwpos : 0 < rw) (hhpos : 0 < rh) (hw31 : rw < 2147483648) (hh31 : rh < 2147483648)
    (hnw : s.mDisplayModeRotated.width = (nw : Int))
    (hnh : s.mDisplayModeRotated.height = (nh : Int))
    (hnwb : nw ≤ 4194304) (hnhb : nh ≤ 4194304)
    (hcheck : ¬ (pos.x < s.mDisplayRect.left ∨ pos.x > s.mDisplayRect.right ∨
      pos.y < s.mDisplayRect.top ∨ pos.y > s.mDisplayRect.bottom)) :
    ∃ x y, pointerEvent s pos buttonMask
          = some ([Call.server_setCursorPos x y false,
                   Call.input_pointerEvent buttonMask x y], s) ∧
      (0 ≤ x ∧ x ≤ nw) ∧ (0 ≤ y ∧ y ≤ nh) := by
  have hr : s.mDisplayRect.right = s.mDisplayRect.left + (rw : Int) := by
    unfold Rect.getWidth at hw
    omega
  have hb : s.mDisplayRect.bottom = s.mDisplayRect.top + (rh : Int) := by
    unfold Rect.getHeight at hh
    omega
  obtain ⟨x, hx, hxle⟩ := translate_bound s.mDisplayRect.left pos.x rw nw hwpos hw31 hnwb
    (by omega) (by omega)
  obtain ⟨y, hy, hyle⟩ := translate_bound s.mDisplayRect.top pos.y rh nh hhpos hh31 hnhb
    (by omega) (by omega)
  refine ⟨x, y, ?_, ⟨Nat.zero_le _, hxle⟩, ⟨Nat.zero_le _, hyle⟩⟩
  unfold pointerEvent
  simp only
  rw [if_neg hcheck]
  simp only [hp]
  rw [← hc.1, ← hc.2, hnw, hnh, hw, hh, hx, hy]
  simp [hsrv, hin]

/-- Witness of the amended C10: the far corner (1264, 1080) of the display rect
(656, 0, 1264, 1080) centred in a 1920x1080 pixel buffer, for a 1080x1920 device. -/
theorem pointerEvent_within_device_witness :
    ∃ x y, pointerEvent letterboxDesktop ⟨1264, 1080⟩ 1
          = some ([Call.server_setCursorPos x y false, Call.input_pointerEvent 1 x y],
                  letterboxDesktop) ∧
      (0 ≤ x ∧ x ≤ 1080) ∧ (0 ≤ y ∧ y ≤ 1920) :=
  pointerEvent_within_device letterboxDesktop ⟨1920, 1080⟩ ⟨1264, 1080⟩ 1 608 1080 1080 1920
    (by decide) (by decide) (by decide) ⟨by decide, by decide⟩ (by decide) (by decide)
    (by decide) (by decide) (by decide) (by decide) (by decide) (by decide) (by decide)
    (by decide) (by decide)

/-- The far corner of the example is forwarded as the far corner (1080, 1920) of the
device. -/
theorem pointerEvent_letterbox_corner :
    pointerEvent letterboxDesktop ⟨1264, 1080⟩ 1
      = some ([Call.server_setCursorPos 1080 1920 false, Call.input_pointerEvent 1 1080 1920],
              letterboxDesktop) := by
  decide

/-- The bound on the normalized size in the device bound cannot be dropped altogether:
with a 1x1 display rect covering a 1x1 pixel buffer and a normalized width of 16777219,
the pointer (1, 1) is forwarded with x = 16777220. -/
theorem pointerEvent_rounded_past_device :
    pointerEvent hugeDesktop ⟨1, 1⟩ 1
        = some ([Call.server_setCursorPos 16777220 1 false,
                 Call.input_pointerEvent 1 16777220 1], hugeDesktop) ∧
      ¬ (16777220 ≤ 16777219) := by
  decide

end VncFlinger
